import Mathlib

/-!
Shallow embedding of the anchor core of stellar-connect-sdk-go: the transfer
finite state machine (anchor/fsm.go), the in-memory nonce store, the transfer
manager (anchor/transfer.go), the challenge verifier (anchor auth), the
HMAC-JWT issuer/verifier (anchor/jwt.go), the observer backoff loop, and the
payment filters (sdk/transfer.go observer package).  Go strings are Lean
Strings, Go time.Time instants are Nat, Go byte slices are Lean Strings where
only equality matters, machine integers are Int, maps are association lists,
and fallible Go calls return Option or Except.
-/

/-- Machine-readable error code (`errors.Code` in errors/errors.go). -/
abbrev ErrCode := String

def TRANSITION_INVALID : ErrCode := "TRANSITION_INVALID"

def STORE_ERROR : ErrCode := "STORE_ERROR"

def CHALLENGE_VERIFY_FAILED : ErrCode := "CHALLENGE_VERIFY_FAILED"

def INTERACTIVE_TOKEN_INVALID : ErrCode := "INTERACTIVE_TOKEN_INVALID"

def JWT_VERIFICATION_FAILED : ErrCode := "JWT_VERIFICATION_FAILED"

def JWT_EXPIRED : ErrCode := "JWT_EXPIRED"

def TRANSFER_INIT_FAILED : ErrCode := "TRANSFER_INIT_FAILED"

/-- Structured SDK error: code plus human message (errors.StellarConnectError,
restricted to the two fields the claims mention). -/
structure AnchorError where
  code : ErrCode
  message : String
deriving Repr, DecidableEq

deriving instance DecidableEq for Except

/-- `stellarconnect.TransferStatus` is a Go string type. -/
abbrev TransferStatus := String

def StatusInitiating : TransferStatus := "initiating"

def StatusInteractive : TransferStatus := "interactive"

def StatusPendingUserTransferStart : TransferStatus := "pending_user_transfer_start"

def StatusPendingExternal : TransferStatus := "pending_external"

def StatusPendingStellar : TransferStatus := "pending_stellar"

def StatusPaymentRequired : TransferStatus := "payment_required"

def StatusCompleted : TransferStatus := "completed"

def StatusFailed : TransferStatus := "failed"

def StatusDenied : TransferStatus := "denied"

def StatusCancelled : TransferStatus := "cancelled"

def StatusExpired : TransferStatus := "expired"

/-- The `legalTransitions` map of anchor/fsm.go: for a known "from" state the
list of allowed "to" states, `none` for a status string absent from the map
(Go `legalTransitions[from]` with `exists = false`). -/
def legalTransitions (fromStatus : TransferStatus) : Option (List TransferStatus) :=
  if fromStatus = StatusInitiating then
    some [StatusInteractive, StatusPendingUserTransferStart, StatusPendingExternal,
      StatusFailed, StatusDenied]
  else if fromStatus = StatusInteractive then
    some [StatusPendingUserTransferStart, StatusPendingExternal, StatusFailed, StatusExpired]
  else if fromStatus = StatusPendingUserTransferStart then
    some [StatusPendingExternal, StatusPendingStellar, StatusFailed, StatusCancelled]
  else if fromStatus = StatusPendingExternal then
    some [StatusPendingStellar, StatusFailed, StatusCancelled]
  else if fromStatus = StatusPendingStellar then
    some [StatusCompleted, StatusFailed]
  else if fromStatus = StatusPaymentRequired then
    some [StatusPendingStellar, StatusFailed]
  else if fromStatus = StatusCompleted then some []
  else if fromStatus = StatusFailed then some []
  else if fromStatus = StatusDenied then some []
  else if fromStatus = StatusCancelled then some []
  else if fromStatus = StatusExpired then some []
  else none

/-- `ValidateTransition` of anchor/fsm.go.  Returns `none` for nil (legal) and
`some e` for the Go error value. -/
def ValidateTransition (fromStatus toStatus : TransferStatus) : Option AnchorError :=
  match legalTransitions fromStatus with
  | none =>
      some { code := TRANSITION_INVALID
             message := "unknown source state: " ++ fromStatus }
  | some validToStates =>
      if toStatus ∈ validToStates then none
      else
        some { code := TRANSITION_INVALID
               message := "illegal transition from " ++ fromStatus ++ " to " ++ toStatus }

/-- The spec's legal transition relation of section 4.3, written as the
explicit list of pairs from the table.  This is the specification-side
definition that C1 compares `ValidateTransition` against. -/
def specLegalTransitions : List (TransferStatus × TransferStatus) :=
  [(StatusInitiating, StatusInteractive),
   (StatusInitiating, StatusPendingUserTransferStart),
   (StatusInitiating, StatusPendingExternal),
   (StatusInitiating, StatusFailed),
   (StatusInitiating, StatusDenied),
   (StatusInteractive, StatusPendingUserTransferStart),
   (StatusInteractive, StatusPendingExternal),
   (StatusInteractive, StatusFailed),
   (StatusInteractive, StatusExpired),
   (StatusPendingUserTransferStart, StatusPendingExternal),
   (StatusPendingUserTransferStart, StatusPendingStellar),
   (StatusPendingUserTransferStart, StatusFailed),
   (StatusPendingUserTransferStart, StatusCancelled),
   (StatusPendingExternal, StatusPendingStellar),
   (StatusPendingExternal, StatusFailed),
   (StatusPendingExternal, StatusCancelled),
   (StatusPendingStellar, StatusCompleted),
   (StatusPendingStellar, StatusFailed),
   (StatusPaymentRequired, StatusPendingStellar),
   (StatusPaymentRequired, StatusFailed)]

/-! ## In-memory nonce store (memory.NonceStore, src/unnamed/part_007)

The Go `map[string]nonceEntry` is modelled as a partial function from nonce
strings to entries; `time.Time` instants are Nat and Go's `now.After(t)` is
`t < now`. -/

/-- `nonceEntry` of the in-memory NonceStore. -/
structure NonceEntry where
  expiresAt : Nat
  consumed : Bool
deriving Repr, DecidableEq

/-- The nonce map of `memory.NonceStore`. -/
abbrev NonceStoreState := String → Option NonceEntry

def emptyNonceStore : NonceStoreState := fun _ => none

/-- `NonceStore.Add`: record the nonce as unconsumed, error if present. -/
def nonceAdd (s : NonceStoreState) (nonce : String) (expiresAt : Nat) :
    Except String NonceStoreState :=
  match s nonce with
  | some _ => .error "nonce already exists"
  | none => .ok (fun k => if k = nonce then some ⟨expiresAt, false⟩ else s k)

/-- One cell of the lazy-cleanup sweep at the top of `NonceStore.Consume`:
an entry with `now.After(entry.ExpiresAt)` is deleted. -/
def sweepCell (now : Nat) : Option NonceEntry → Option NonceEntry
  | none => none
  | some e => if e.expiresAt < now then none else some e

/-- The lazy-cleanup loop of `NonceStore.Consume`, applied to every key. -/
def nonceSweep (now : Nat) (s : NonceStoreState) : NonceStoreState :=
  fun k => sweepCell now (s k)

/-- `NonceStore.Consume`: sweep, then look the nonce up and consume it,
returning the Go boolean and the updated store. -/
def nonceConsume (s : NonceStoreState) (now : Nat) (nonce : String) :
    Bool × NonceStoreState :=
  match nonceSweep now s nonce with
  | none => (false, nonceSweep now s)
  | some entry =>
      if entry.consumed then (false, nonceSweep now s)
      else if entry.expiresAt < now then
        (false, fun k => if k = nonce then none else nonceSweep now s k)
      else
        (true, fun k => if k = nonce then some { entry with consumed := true }
               else nonceSweep now s k)

/-- A nonce that can never again be successfully consumed: its entry is absent
or marked consumed. -/
def nonceUnconsumable (s : NonceStoreState) (nonce : String) : Prop :=
  ∀ e, s nonce = some e → e.consumed = true

/-- The effect of `Consume` on the cell it targets, as a function of the swept
cell's contents. -/
def consumeCell (now : Nat) : Option NonceEntry → Option NonceEntry
  | none => none
  | some e =>
      if e.consumed then some e
      else if e.expiresAt < now then none
      else some { e with consumed := true }

/-- ASCII whitespace, as Go's `unicode.IsSpace` classifies the Latin-1
range (space, tab, newline, vertical tab, form feed, carriage return). -/
def isGoSpace (c : Char) : Bool :=
  c = ' ' || c = '\t' || c = '\n' || c = '\x0b' || c = '\x0c' || c = '\r'

/-- Go's `strings.TrimSpace`, modelled over the character list (whitespace
outside ASCII is not modelled; no claim exercises it). -/
def goTrimSpace (s : String) : String :=
  String.mk (((s.data.dropWhile isGoSpace).reverse.dropWhile isGoSpace).reverse)

/-! ## Transfer manager (anchor/transfer.go)

`stellarconnect.Transfer` and `TransferUpdate`, the abstract `TransferStore`
interface the manager writes through, the lifecycle hooks as an emitted event
trace, and the `transition` / `updateAndTransition` critical sections.  The
open-ended metadata map is omitted: no claim refers to it. -/

def KindDeposit : String := "deposit"

def KindWithdrawal : String := "withdrawal"

def ModeInteractive : String := "interactive"

def ModeAPI : String := "api"

/-- `stellarconnect.Transfer`. -/
structure Transfer where
  ID : String
  Kind : String
  Mode : String
  Status : TransferStatus
  AssetCode : String
  AssetIssuer : String
  Account : String
  Amount : String
  InteractiveToken : String
  InteractiveURL : String
  ExternalRef : String
  StellarTxHash : String
  Message : String
  CreatedAt : Nat
  UpdatedAt : Nat
  CompletedAt : Option Nat
deriving Repr, DecidableEq

/-- `stellarconnect.TransferUpdate`: partial update with nullable-with-presence
fields (Go pointers become Options). -/
structure TransferUpdate where
  Status : Option TransferStatus := none
  Amount : Option String := none
  ExternalRef : Option String := none
  StellarTxHash : Option String := none
  InteractiveToken : Option String := none
  InteractiveURL : Option String := none
  Message : Option String := none
  CompletedAt : Option Nat := none
deriving Repr, DecidableEq

/-- The `stellarconnect.TransferStore` interface as the transfer manager uses
it: an abstract state type with the fallible operations the Go interface
declares (`FindByID`, `Update`, `Save`).  Errors are Go error strings. -/
structure TransferStoreOps (σ : Type) where
  findByID : σ → String → Except String Transfer
  update : σ → String → TransferUpdate → Except String σ
  save : σ → Transfer → Except String σ

/-- `anchor.HookEvent` is a Go string type. -/
abbrev HookEvent := String

def HookDepositInitiated : HookEvent := "deposit:initiated"

def HookDepositFundsReceived : HookEvent := "deposit:funds_received"

def HookWithdrawalInitiated : HookEvent := "withdrawal:initiated"

def HookWithdrawalStellarPaymentSent : HookEvent := "withdrawal:stellar_payment_sent"

def HookTransferStatusChanged : HookEvent := "transfer:status_changed"

/-- Outcome of one transfer-manager mutation: the Go error result, the store
state after the call, and the hook events fired (in order) with the transfer
value they were fired with. -/
structure MutationOutcome (σ : Type) where
  result : Except AnchorError Unit
  store : σ
  hooks : List (HookEvent × Transfer)

/-- `TransferManager.updateAndTransition`: load, validate the FSM step, write
through the store, reload, fire the hook and the status-changed hook. -/
def updateAndTransition {σ : Type} (ops : TransferStoreOps σ) (s : σ)
    (transferID : String) (update : TransferUpdate) (next : TransferStatus)
    (hook : HookEvent) : MutationOutcome σ :=
  match ops.findByID s transferID with
  | .error _ => ⟨.error ⟨STORE_ERROR, "failed to load transfer"⟩, s, []⟩
  | .ok transfer =>
      match ValidateTransition transfer.Status next with
      | some e => ⟨.error e, s, []⟩
      | none =>
          let update2 := { update with Status := some next }
          match ops.update s transferID update2 with
          | .error _ => ⟨.error ⟨STORE_ERROR, "failed to update transfer"⟩, s, []⟩
          | .ok s2 =>
              match ops.findByID s2 transferID with
              | .ok updated =>
                  ⟨.ok (), s2, [(hook, updated), (HookTransferStatusChanged, updated)]⟩
              | .error _ => ⟨.ok (), s2, []⟩

/-- `TransferManager.transition`: like `updateAndTransition` but builds the
update itself (message when non-blank, completed-at stamp on completion) and
fires only the status-changed hook. -/
def transition {σ : Type} (ops : TransferStoreOps σ) (s : σ) (transferID : String)
    (next : TransferStatus) (message : String) (now : Nat) : MutationOutcome σ :=
  match ops.findByID s transferID with
  | .error _ => ⟨.error ⟨STORE_ERROR, "failed to load transfer"⟩, s, []⟩
  | .ok transfer =>
      match ValidateTransition transfer.Status next with
      | some e => ⟨.error e, s, []⟩
      | none =>
          let update0 : TransferUpdate := { Status := some next }
          let update1 := if goTrimSpace message ≠ "" then { update0 with Message := some message }
            else update0
          let update2 := if next = StatusCompleted then { update1 with CompletedAt := some now }
            else update1
          match ops.update s transferID update2 with
          | .error _ => ⟨.error ⟨STORE_ERROR, "failed to update transfer"⟩, s, []⟩
          | .ok s2 =>
              match ops.findByID s2 transferID with
              | .ok updated => ⟨.ok (), s2, [(HookTransferStatusChanged, updated)]⟩
              | .error _ => ⟨.ok (), s2, []⟩

/-- Details carried by `NotifyFundsReceived`. -/
structure FundsReceivedDetails where
  ExternalRef : String
  Amount : String
deriving Repr, DecidableEq

/-- The transfer-manager mutation entry points of C6, with their payloads. -/
inductive MutationCall where
  | notifyFundsReceived (details : FundsReceivedDetails)
  | notifyPaymentSent (stellarTxHash : String)
  | notifyPaymentReceived (stellarTxHash : String)
  | notifyDisbursementSent (externalRef : String)
  | deny (reason : String)
  | cancel (reason : String)
  | completeInteractive
deriving Repr, DecidableEq

/-- Dispatch of the seven mutation entry points of anchor/transfer.go
(`Notify*`, `Deny`, `Cancel`, `CompleteInteractive`), each building its update
and target status exactly as the Go wrapper does. -/
def runMutation {σ : Type} (ops : TransferStoreOps σ) (s : σ) (transferID : String)
    (now : Nat) : MutationCall → MutationOutcome σ
  | .notifyFundsReceived details =>
      let u0 : TransferUpdate := { ExternalRef := some details.ExternalRef }
      let u1 := if goTrimSpace details.Amount ≠ "" then { u0 with Amount := some details.Amount }
        else u0
      updateAndTransition ops s transferID u1 StatusPendingStellar HookDepositFundsReceived
  | .notifyPaymentSent h =>
      updateAndTransition ops s transferID
        { StellarTxHash := some h, CompletedAt := some now }
        StatusCompleted HookTransferStatusChanged
  | .notifyPaymentReceived h =>
      updateAndTransition ops s transferID { StellarTxHash := some h }
        StatusPendingStellar HookWithdrawalStellarPaymentSent
  | .notifyDisbursementSent r =>
      updateAndTransition ops s transferID
        { ExternalRef := some r, CompletedAt := some now }
        StatusCompleted HookTransferStatusChanged
  | .deny reason => transition ops s transferID StatusDenied reason now
  | .cancel reason => transition ops s transferID StatusCancelled reason now
  | .completeInteractive =>
      match ops.findByID s transferID with
      | .error _ => ⟨.error ⟨STORE_ERROR, "failed to load transfer"⟩, s, []⟩
      | .ok transfer =>
          if transfer.Mode ≠ ModeInteractive then
            ⟨.error ⟨TRANSITION_INVALID, "transfer not in interactive mode"⟩, s, []⟩
          else
            let next := if transfer.Kind = KindDeposit then StatusPendingUserTransferStart
              else StatusPendingExternal
            transition ops s transferID next "" now

/-- The FSM target status each mutation entry point requests, given the loaded
transfer. -/
def mutationTarget (tr : Transfer) : MutationCall → TransferStatus
  | .notifyFundsReceived _ => StatusPendingStellar
  | .notifyPaymentSent _ => StatusCompleted
  | .notifyPaymentReceived _ => StatusPendingStellar
  | .notifyDisbursementSent _ => StatusCompleted
  | .deny _ => StatusDenied
  | .cancel _ => StatusCancelled
  | .completeInteractive =>
      if tr.Kind = KindDeposit then StatusPendingUserTransferStart else StatusPendingExternal

/-- Concrete completed transfer used by witnesses. -/
def trCompleted : Transfer :=
  { ID := "t1", Kind := "deposit", Mode := "api", Status := "completed",
    AssetCode := "USDC", AssetIssuer := "", Account := "GA", Amount := "10",
    InteractiveToken := "", InteractiveURL := "", ExternalRef := "",
    StellarTxHash := "", Message := "", CreatedAt := 0, UpdatedAt := 0,
    CompletedAt := none }

/-- Concrete pending-external transfer used by witnesses. -/
def trPendingExternal : Transfer :=
  { trCompleted with Status := "pending_external", CompletedAt := none }

/-- Concrete store for witnesses: state true holds a completed transfer, state
false a pending-external one; updates always fail. -/
def witnessStoreOps : TransferStoreOps Bool :=
  { findByID := fun s _ => if s then .ok trCompleted else .ok trPendingExternal
    update := fun _ _ _ => .error "update failed"
    save := fun s _ => .ok s }

/-! ## Interactive session-token registry (TransferManager.tokenToID)

The `map[string]string` behind `PeekInteractiveToken` and
`ConsumeInteractiveToken` (anchor/transfer.go), modelled as a partial
function from token to transfer id. -/

abbrev TokenMap := String → Option String

/-- The write `tm.tokenToID[token] = transferID` inside
`generateInteractiveURL`. -/
def mintInteractiveToken (tokenToID : TokenMap) (token transferID : String) : TokenMap :=
  fun k => if k = token then some transferID else tokenToID k

/-- `TransferManager.PeekInteractiveToken`: validate without consuming.  The
token map is returned so that statelessness of a peek is a stated fact and
repeated peeks can be chained. -/
def peekInteractiveToken {σ : Type} (ops : TransferStoreOps σ) (s : σ)
    (tokenToID : TokenMap) (token : String) :
    Except AnchorError Transfer × TokenMap :=
  match tokenToID token with
  | none => (.error ⟨INTERACTIVE_TOKEN_INVALID, "interactive token invalid"⟩, tokenToID)
  | some transferID =>
      match ops.findByID s transferID with
      | .error _ => (.error ⟨STORE_ERROR, "failed to load transfer"⟩, tokenToID)
      | .ok transfer => (.ok transfer, tokenToID)

/-- `TransferManager.ConsumeInteractiveToken`: validate and delete the
binding (the delete happens before the store load). -/
def consumeInteractiveToken {σ : Type} (ops : TransferStoreOps σ) (s : σ)
    (tokenToID : TokenMap) (token : String) :
    Except AnchorError Transfer × TokenMap :=
  match tokenToID token with
  | none => (.error ⟨INTERACTIVE_TOKEN_INVALID, "interactive token invalid"⟩, tokenToID)
  | some transferID =>
      let t2 : TokenMap := fun k => if k = token then none else tokenToID k
      match ops.findByID s transferID with
      | .error _ => (.error ⟨STORE_ERROR, "failed to load transfer"⟩, t2)
      | .ok transfer => (.ok transfer, t2)

/-! ## In-memory transfer store (memory.TransferStore, src/unnamed/part_007)
and the initiation entry points of anchor/transfer.go. -/

/-- The `map[string]*Transfer` of memory.TransferStore. -/
abbrev MemStore := String → Option Transfer

/-- `memory.TransferStore.Save`: error when the ID already exists. -/
def memSave (s : MemStore) (tr : Transfer) : Except String MemStore :=
  match s tr.ID with
  | some _ => .error "transfer already exists"
  | none => .ok (fun k => if k = tr.ID then some tr else s k)

/-- `memory.TransferStore.FindByID`. -/
def memFindByID (s : MemStore) (id : String) : Except String Transfer :=
  match s id with
  | none => .error "transfer not found"
  | some tr => .ok tr

/-- The field-by-field partial update of `memory.TransferStore.Update`
(non-nil fields applied, `UpdatedAt` always stamped). -/
def applyTransferUpdate (tr : Transfer) (u : TransferUpdate) (now : Nat) : Transfer :=
  { tr with
    Status := u.Status.getD tr.Status
    Amount := u.Amount.getD tr.Amount
    ExternalRef := u.ExternalRef.getD tr.ExternalRef
    StellarTxHash := u.StellarTxHash.getD tr.StellarTxHash
    InteractiveToken := u.InteractiveToken.getD tr.InteractiveToken
    InteractiveURL := u.InteractiveURL.getD tr.InteractiveURL
    Message := u.Message.getD tr.Message
    CompletedAt := match u.CompletedAt with | some t => some t | none => tr.CompletedAt
    UpdatedAt := now }

/-- `memory.TransferStore.Update`: error when the ID is absent. -/
def memUpdate (s : MemStore) (id : String) (u : TransferUpdate) (now : Nat) :
    Except String MemStore :=
  match s id with
  | none => .error "transfer not found"
  | some tr => .ok (fun k => if k = id then some (applyTransferUpdate tr u now) else s k)

/-- The in-memory store packaged as the abstract interface. -/
def memStoreOps (now : Nat) : TransferStoreOps MemStore :=
  { findByID := memFindByID
    update := fun s id u => memUpdate s id u now
    save := memSave }

/-- `anchor.DepositRequest` (metadata omitted). -/
structure DepositRequest where
  Account : String
  AssetCode : String
  Amount : String
  Mode : String
deriving Repr, DecidableEq

/-- `anchor.WithdrawalRequest` (metadata omitted). -/
structure WithdrawalRequest where
  Account : String
  AssetCode : String
  Amount : String
  Mode : String
  Dest : String
  DestExtra : String
deriving Repr, DecidableEq

/-- `anchor.DepositResult`. -/
structure DepositResult where
  ID : String
  InteractiveURL : String := ""
  Instructions : String := ""
  ETA : Nat := 0
deriving Repr, DecidableEq

/-- `anchor.WithdrawalResult`. -/
structure WithdrawalResult where
  ID : String
  InteractiveURL : String := ""
  StellarAccount : String := ""
  StellarMemo : String := ""
  StellarMemoType : String := ""
  ETA : Nat := 0
deriving Repr, DecidableEq

/-- Outcome of an initiation call: Go result, store state, hook trace. -/
structure CallOutcome (σ ρ : Type) where
  result : Except AnchorError ρ
  store : σ
  hooks : List (HookEvent × Transfer)

/-- The fresh transfer record built by `InitiateDeposit` before the
mode-specific branch. -/
def newDepositTransfer (req : DepositRequest) (id : String) (now : Nat) : Transfer :=
  { ID := id, Kind := KindDeposit, Mode := req.Mode, Status := StatusInitiating,
    AssetCode := req.AssetCode, AssetIssuer := "", Account := req.Account,
    Amount := req.Amount, InteractiveToken := "", InteractiveURL := "",
    ExternalRef := "", StellarTxHash := "", Message := "", CreatedAt := now,
    UpdatedAt := now, CompletedAt := none }

/-- The fresh transfer record built by `InitiateWithdrawal` before the
mode-specific branch. -/
def newWithdrawalTransfer (req : WithdrawalRequest) (id : String) (now : Nat) : Transfer :=
  { newDepositTransfer ⟨req.Account, req.AssetCode, req.Amount, req.Mode⟩ id now with
    Kind := KindWithdrawal }

/-- `TransferManager.InitiateDeposit`.  The random transfer id and, for the
interactive branch, the minted token and URL enter as parameters. -/
def InitiateDeposit {σ : Type} (ops : TransferStoreOps σ) (s : σ) (req : DepositRequest)
    (id token url : String) (now : Nat) : CallOutcome σ DepositResult :=
  if goTrimSpace req.Account = "" ∨ goTrimSpace req.AssetCode = "" ∨ goTrimSpace req.Amount = "" then
    ⟨.error ⟨TRANSFER_INIT_FAILED, "account, asset_code, and amount are required"⟩, s, []⟩
  else
    let base := newDepositTransfer req id now
    let transfer :=
      if req.Mode = ModeInteractive then
        { base with
          InteractiveToken := token
          InteractiveURL := url
          Status := StatusInteractive }
      else base
    match ops.save s transfer with
    | .error _ => ⟨.error ⟨STORE_ERROR, "failed to save transfer"⟩, s, []⟩
    | .ok s1 =>
        if transfer.Mode = ModeInteractive then
          ⟨.ok { ID := transfer.ID, InteractiveURL := transfer.InteractiveURL }, s1,
            [(HookDepositInitiated, transfer)]⟩
        else
          let m := transition ops s1 transfer.ID StatusPendingExternal "" now
          match m.result with
          | .error e => ⟨.error e, m.store, m.hooks⟩
          | .ok _ =>
              ⟨.ok { ID := transfer.ID, Instructions := "deposit initiated", ETA := 0 },
                m.store, m.hooks ++ [(HookDepositInitiated, transfer)]⟩

/-- `TransferManager.InitiateWithdrawal`. -/
def InitiateWithdrawal {σ : Type} (ops : TransferStoreOps σ) (s : σ)
    (req : WithdrawalRequest) (id token url distributionAccount : String) (now : Nat) :
    CallOutcome σ WithdrawalResult :=
  if goTrimSpace req.Account = "" ∨ goTrimSpace req.AssetCode = "" ∨ goTrimSpace req.Amount = "" then
    ⟨.error ⟨TRANSFER_INIT_FAILED, "account, asset_code, and amount are required"⟩, s, []⟩
  else
    let base := newWithdrawalTransfer req id now
    let transfer :=
      if req.Mode = ModeInteractive then
        { base with
          InteractiveToken := token
          InteractiveURL := url
          Status := StatusInteractive }
      else { base with Status := StatusPaymentRequired }
    match ops.save s transfer with
    | .error _ => ⟨.error ⟨STORE_ERROR, "failed to save transfer"⟩, s, []⟩
    | .ok s1 =>
        ⟨.ok { ID := transfer.ID
               InteractiveURL := transfer.InteractiveURL
               StellarAccount := distributionAccount
               StellarMemo := transfer.ID
               StellarMemoType := "text" }, s1,
          [(HookWithdrawalInitiated, transfer)]⟩

/-- The record `InitiateWithdrawal` persists in API mode: status stepped to
payment-required before the save. -/
def apiWithdrawalTransfer (req : WithdrawalRequest) (id : String) (now : Nat) : Transfer :=
  { newWithdrawalTransfer req id now with Status := StatusPaymentRequired }

/-! ## Observer reconnect backoff (HorizonObserver.Start, src/unnamed/part_003)

The streaming loop is abstracted to the sequence of events that drive the
backoff variable: a stream failure causes a wait of the current backoff and
then doubles it with the cap applied, and a received operation resets it to
the initial backoff.  Durations are Nat. -/

/-- An event relevant to the backoff state of the `Start` loop. -/
inductive StreamEvent where
  | streamFailure
  | operationReceived
deriving Repr, DecidableEq

/-- The waits performed by `Start` before each reconnection attempt, given the
current backoff value and the remaining events: Go lines
`backoff = h.initialBackoff` (reset in the stream callback) and
`backoff = backoff * 2; if backoff > h.maxBackoff { backoff = h.maxBackoff }`
after the `time.After(backoff)` wait. -/
def observerWaits (initial maxB : Nat) : Nat → List StreamEvent → List Nat
  | _, [] => []
  | _, .operationReceived :: rest => observerWaits initial maxB initial rest
  | backoff, .streamFailure :: rest =>
      let doubled := backoff * 2
      let next := if doubled > maxB then maxB else doubled
      backoff :: observerWaits initial maxB next rest

/-- The waits of a full `Start` execution: the backoff variable starts at the
configured initial backoff. -/
def observerStartWaits (initial maxB : Nat) (events : List StreamEvent) : List Nat :=
  observerWaits initial maxB initial events

/-! ## Payment filters (observer package, src/sdk/transfer.go second half) -/

/-- `observer.PaymentEvent`. -/
structure PaymentEvent where
  ID : String
  From : String
  To : String
  Asset : String
  Amount : String
  Memo : String
  Cursor : String
  TransactionHash : String
deriving Repr, DecidableEq

/-- Go's built-in string `<=`: byte-wise lexicographic comparison.  UTF-8
preserves code-point order, so character-wise comparison by code point models
it exactly. -/
def goStringLe : List Char → List Char → Bool
  | [], _ => true
  | _ :: _, [] => false
  | a :: as, b :: bs =>
      if a < b then true
      else if b < a then false
      else goStringLe as bs

/-- `observer.WithMinAmount`: the filter passes when
`evt.Amount >= minAmount` as Go strings. -/
def WithMinAmount (minAmount : String) : PaymentEvent → Bool :=
  fun evt => goStringLe minAmount.data evt.Amount.data

/-- Numeric value of a decimal digit string. -/
def decimalValue : List Char → Nat
  | [] => 0
  | c :: rest => decimalValueAux (c.toNat - '0'.toNat) rest
where
  decimalValueAux (acc : Nat) : List Char → Nat
    | [] => acc
    | c :: rest => decimalValueAux (acc * 10 + (c.toNat - '0'.toNat)) rest

/-! ## Challenge verification (AuthIssuer.VerifyChallenge and
verifyChallengeSignatures, src/unnamed/part_005)

XDR parsing, ed25519 and the transaction hash are abstracted: a parsed
transaction is a `ChallengeTx` value, `keypair.ParseAddress` success is an
oracle `parseOk`, and `kp.Verify(txHash, sigData) == nil` is an oracle
`verifySig` over the fixed hash of the verification call.  Signature payloads
and 4-byte hints are opaque Nats. -/

/-- One decorated signature of the envelope: its 4-byte hint and payload. -/
structure ChallengeSig where
  hint : Nat
  data : Nat
deriving Repr, DecidableEq

/-- A `ManageData` operation: name, optional byte value, source override. -/
structure ManageDataOp where
  name : String
  value : Option String
  sourceAccount : String
deriving Repr, DecidableEq

/-- An operation of the parsed transaction; non-ManageData operations fail
the Go type assertions. -/
inductive TxOperation where
  | manageData (op : ManageDataOp)
  | other
deriving Repr, DecidableEq

/-- The parsed plain (non-fee-bump) transaction. -/
structure ChallengeTx where
  sourceAccount : String
  operations : List TxOperation
  signatures : List ChallengeSig
deriving Repr, DecidableEq

/-- A signer entry reported by the `AccountFetcher`. -/
structure AccountSigner where
  key : String
  weight : Int
deriving Repr, DecidableEq

/-- The thresholds reported by the `AccountFetcher`. -/
structure Thresholds where
  low : Int
  med : Int
  high : Int
deriving Repr, DecidableEq

/-- The signer-set resolution of `verifyChallengeSignatures`: fetched signers
with the medium threshold when the fetch succeeds (invalid signer keys
skipped), master-key-only with threshold 0 when the fetch fails (unfunded) or
no fetcher is configured.  `fetcher` is the outcome of
`fetcher.FetchSigners(ctx, clientAccount)` when one is configured. -/
def resolveClientSigners (parseOk : String → Bool) (clientAccount : String)
    (fetcher : Option (Except String (List AccountSigner × Thresholds))) :
    Except AnchorError (List (String × Int) × Int) :=
  match fetcher with
  | some (.ok (signers, thresholds)) =>
      .ok ((signers.filter (fun s => parseOk s.key)).map (fun s => (s.key, s.weight)),
        thresholds.med)
  | some (.error _) =>
      if parseOk clientAccount then .ok ([(clientAccount, 1)], 0)
      else .error ⟨CHALLENGE_VERIFY_FAILED, "invalid account address"⟩
  | none =>
      if parseOk clientAccount then .ok ([(clientAccount, 1)], 0)
      else .error ⟨CHALLENGE_VERIFY_FAILED, "invalid account address"⟩

/-- The signature loop of `verifyChallengeSignatures`, with its running state:
whether the server signed, the accumulated client weight, and the hints seen
so far. -/
def sigLoop (verifySig : String → Nat → Bool) (serverKey : String)
    (clientSigners : List (String × Int)) :
    List ChallengeSig → Bool → Int → List Nat → Except AnchorError (Bool × Int)
  | [], serverSigned, total, _ => .ok (serverSigned, total)
  | sig :: rest, serverSigned, total, seen =>
      if sig.hint ∈ seen then
        .error ⟨CHALLENGE_VERIFY_FAILED, "duplicate signature detected"⟩
      else if verifySig serverKey sig.data then
        sigLoop verifySig serverKey clientSigners rest true total (sig.hint :: seen)
      else
        match clientSigners.find? (fun cs => verifySig cs.1 sig.data) with
        | some cs =>
            sigLoop verifySig serverKey clientSigners rest serverSigned (total + cs.2)
              (sig.hint :: seen)
        | none => .error ⟨CHALLENGE_VERIFY_FAILED, "transaction has unrecognized signatures"⟩

/-- `verifyChallengeSignatures` of src/unnamed/part_005. -/
def verifyChallengeSignatures (verifySig : String → Nat → Bool) (parseOk : String → Bool)
    (serverPublicKey clientAccount : String)
    (fetcher : Option (Except String (List AccountSigner × Thresholds)))
    (sigs : List ChallengeSig) : Except AnchorError Unit :=
  if ¬ parseOk serverPublicKey then
    .error ⟨CHALLENGE_VERIFY_FAILED, "invalid server public key"⟩
  else
    match resolveClientSigners parseOk clientAccount fetcher with
    | .error e => .error e
    | .ok (clientSigners, medThreshold) =>
        if sigs = [] then
          .error ⟨CHALLENGE_VERIFY_FAILED, "challenge transaction has no signatures"⟩
        else
          match sigLoop verifySig serverPublicKey clientSigners sigs false 0 [] with
          | .error e => .error e
          | .ok (serverSigned, totalWeight) =>
              if ¬ serverSigned then
                .error ⟨CHALLENGE_VERIFY_FAILED, "challenge transaction not signed by server"⟩
              else if totalWeight < medThreshold then
                .error ⟨CHALLENGE_VERIFY_FAILED, "challenge transaction not signed by client"⟩
              else if medThreshold = 0 ∧ totalWeight = 0 then
                .error ⟨CHALLENGE_VERIFY_FAILED, "challenge transaction not signed by client"⟩
              else .ok ()

/-- Weight a signature contributes to the accumulated client weight: zero for
a server signature, else the weight of the first matching client signer. -/
def clientSigWeight (verifySig : String → Nat → Bool) (serverKey : String)
    (clientSigners : List (String × Int)) (sig : ChallengeSig) : Int :=
  if verifySig serverKey sig.data then 0
  else
    match clientSigners.find? (fun cs => verifySig cs.1 sig.data) with
    | some cs => cs.2
    | none => 0

/-- The summed weights of the matched client signatures. -/
def clientWeightSum (verifySig : String → Nat → Bool) (serverKey : String)
    (clientSigners : List (String × Int)) (sigs : List ChallengeSig) : Int :=
  (sigs.map (clientSigWeight verifySig serverKey clientSigners)).sum

/-- `AuthIssuer.VerifyChallenge` of src/unnamed/part_005, over a parsed
transaction (`none` models an unparseable or fee-bump payload).  `issueJWT`
models `jwtIssuer.Issue` for the fixed domain/now; it returns the token.
The call returns the Go result and the nonce store it leaves behind. -/
def VerifyChallenge (verifySig : String → Nat → Bool) (parseOk : String → Bool)
    (domain serverPublicKey : String)
    (fetcher : Option (Except String (List AccountSigner × Thresholds)))
    (issueJWT : String → String) (store : NonceStoreState) (now : Nat)
    (parsed : Option ChallengeTx) : Except AnchorError String × NonceStoreState :=
  match parsed with
  | none => (.error ⟨CHALLENGE_VERIFY_FAILED, "failed to parse challenge transaction"⟩, store)
  | some tx =>
      match tx.operations with
      | .manageData firstOp :: op2 :: _ =>
          match firstOp.value with
          | none => (.error ⟨CHALLENGE_VERIFY_FAILED, "challenge nonce missing"⟩, store)
          | some nonce =>
              if firstOp.name ≠ domain ++ " auth" then
                (.error ⟨CHALLENGE_VERIFY_FAILED, "invalid challenge operation name"⟩, store)
              else
                let consumed := nonceConsume store now nonce
                if ¬ consumed.1 then
                  (.error ⟨CHALLENGE_VERIFY_FAILED, "nonce already used or expired"⟩,
                    consumed.2)
                else if tx.sourceAccount ≠ serverPublicKey then
                  (.error ⟨CHALLENGE_VERIFY_FAILED,
                    "challenge transaction source account must be the server signing key"⟩,
                    consumed.2)
                else if goTrimSpace firstOp.sourceAccount = "" then
                  (.error ⟨CHALLENGE_VERIFY_FAILED,
                    "first operation missing source account (client account)"⟩, consumed.2)
                else
                  match verifyChallengeSignatures verifySig parseOk serverPublicKey
                      firstOp.sourceAccount fetcher tx.signatures with
                  | .error e => (.error e, consumed.2)
                  | .ok _ =>
                      match op2 with
                      | .manageData secondOp =>
                          if secondOp.name ≠ "web_auth_domain" then
                            (.error ⟨CHALLENGE_VERIFY_FAILED,
                              "web_auth_domain operation missing"⟩, consumed.2)
                          else if secondOp.value.getD "" ≠ domain then
                            (.error ⟨CHALLENGE_VERIFY_FAILED,
                              "web_auth_domain value mismatch"⟩, consumed.2)
                          else (.ok (issueJWT firstOp.sourceAccount), consumed.2)
                      | .other =>
                          (.error ⟨CHALLENGE_VERIFY_FAILED,
                            "second operation must be manage_data"⟩, consumed.2)
      | .other :: _ :: _ =>
          (.error ⟨CHALLENGE_VERIFY_FAILED, "first operation must be manage_data"⟩, store)
      | _ =>
          (.error ⟨CHALLENGE_VERIFY_FAILED,
            "challenge transaction must have at least two operations"⟩, store)

/-- Concrete verification oracle for witnesses: signature payload 1 is the
server "S" signature, payload 2 the client "C" signature. -/
def wVerifySig : String → Nat → Bool :=
  fun k d => decide ((k = "S" ∧ d = 1) ∨ (k = "C" ∧ d = 2))

/-- Concrete nonce store for witnesses: "n1" unconsumed until time 10. -/
def wStore : NonceStoreState := fun k => if k = "n1" then some ⟨10, false⟩ else none

/-- A well-formed signed challenge for domain example.com. -/
def wTxGood : ChallengeTx :=
  { sourceAccount := "S"
    operations := [.manageData ⟨"example.com auth", some "n1", "C"⟩,
      .manageData ⟨"web_auth_domain", some "example.com", "S"⟩]
    signatures := [⟨0, 1⟩, ⟨1, 2⟩] }

/-- The same challenge with a wrong web_auth_domain value. -/
def wTxMismatch : ChallengeTx :=
  { wTxGood with
    operations := [.manageData ⟨"example.com auth", some "n1", "C"⟩,
      .manageData ⟨"web_auth_domain", some "evil.com", "S"⟩] }

/-! ## HMAC-SHA256 JWT issuer/verifier (anchor/jwt.go)

Token text is a character list.  The stdlib pieces enter as oracles with the
contracts the code relies on: `enc` is `base64.RawURLEncoding.EncodeToString`
(its alphabet has no dot and `dec` decodes it back), `marshal`/`unmarshal`
are `encoding/json` on `jwtPayload`, and `mac` is the HMAC-SHA256 `Sum`
under the instance's secret.  Unix times and the expiry duration are Int. -/

/-- `stellarconnect.JWTClaims`. -/
structure JWTClaims where
  Subject : String
  Issuer : String
  IssuedAt : Int
  ExpiresAt : Int
  AuthMethod : String
  Memo : String
deriving Repr, DecidableEq

/-- `jwtPayload` of anchor/jwt.go. -/
structure jwtPayload where
  Sub : String
  Iss : String
  Iat : Int
  Exp : Int
  AuthMethod : String
  Memo : String
deriving Repr, DecidableEq

/-- The marshalled `jwtHeader` bytes, `\x7b"alg":"HS256","typ":"JWT"\x7d`. -/
def jwtHeaderJSON : List Char := "\x7b\"alg\":\"HS256\",\"typ\":\"JWT\"\x7d".data

/-- The payload `hmacJWT.Issue` builds: issuer and timestamps stamped over
the caller's claims. -/
def jwtIssuePayload (issuer : String) (expiry now : Int) (claims : JWTClaims) :
    jwtPayload :=
  { Sub := claims.Subject, Iss := issuer, Iat := now, Exp := now + expiry,
    AuthMethod := claims.AuthMethod, Memo := claims.Memo }

/-- `hmacJWT.Issue`: header.payload.signature with base64url segments. -/
def hmacIssue (enc : List Char → List Char) (marshal : jwtPayload → List Char)
    (mac : List Char → List Char) (issuer : String) (expiry now : Int)
    (claims : JWTClaims) : List Char :=
  let headerB64 := enc jwtHeaderJSON
  let payloadB64 := enc (marshal (jwtIssuePayload issuer expiry now claims))
  let message := headerB64 ++ '.' :: payloadB64
  let signatureB64 := enc (mac message)
  message ++ '.' :: signatureB64

/-- `strings.Split(token, ".")`. -/
def splitDot : List Char → List (List Char)
  | [] => [[]]
  | c :: rest =>
      if c = '.' then [] :: splitDot rest
      else
        match splitDot rest with
        | h :: t => (c :: h) :: t
        | [] => [[c]]

/-- `hmacJWT.Verify`. -/
def hmacVerify (enc : List Char → List Char) (dec : List Char → Option (List Char))
    (unmarshal : List Char → Option jwtPayload) (mac : List Char → List Char)
    (issuer : String) (nowV : Int) (token : List Char) :
    Except AnchorError JWTClaims :=
  match splitDot token with
  | [headerB64, payloadB64, signatureB64] =>
      let message := headerB64 ++ '.' :: payloadB64
      let expectedSignatureB64 := enc (mac message)
      if signatureB64 ≠ expectedSignatureB64 then
        .error ⟨JWT_VERIFICATION_FAILED, "invalid JWT signature"⟩
      else
        match dec payloadB64 with
        | none => .error ⟨JWT_VERIFICATION_FAILED, "failed to decode JWT payload"⟩
        | some payloadJSON =>
            match unmarshal payloadJSON with
            | none => .error ⟨JWT_VERIFICATION_FAILED, "failed to parse JWT payload"⟩
            | some payload =>
                if payload.Exp ≤ nowV then
                  .error ⟨JWT_EXPIRED, "token expired"⟩
                else if payload.Iss ≠ issuer then
                  .error ⟨JWT_VERIFICATION_FAILED, "invalid issuer"⟩
                else
                  .ok { Subject := payload.Sub, Issuer := payload.Iss,
                        IssuedAt := payload.Iat, ExpiresAt := payload.Exp,
                        AuthMethod := payload.AuthMethod, Memo := payload.Memo }
  | _ => .error ⟨JWT_VERIFICATION_FAILED, "invalid JWT format: expected 3 parts"⟩

set_option maxHeartbeats 1000000 in
/-- C1: `ValidateTransition(from, to)` returns nil exactly for the pairs of the
spec's legal transition relation, and for every other pair — including every
unknown source state — it returns an error whose code is transition-invalid. -/
theorem validateTransition_matches_spec (f t : TransferStatus) :
    (ValidateTransition f t = none ↔ (f, t) ∈ specLegalTransitions) ∧
    (∀ e, ValidateTransition f t = some e → e.code = TRANSITION_INVALID) := by
  refine ⟨⟨?_, ?_⟩, ?_⟩
  · intro h
    unfold ValidateTransition at h
    rcases hl : legalTransitions f with _ | valid <;> rw [hl] at h
    · simp at h
    · by_cases hm : t ∈ valid
      · unfold legalTransitions at hl
        split_ifs at hl with h1 h2 h3 h4 h5 h6 h7 h8 h9 h10 h11 <;>
          injection hl with hl <;> subst hl <;>
          first
          | (subst h1; fin_cases hm <;> decide)
          | (subst h2; fin_cases hm <;> decide)
          | (subst h3; fin_cases hm <;> decide)
          | (subst h4; fin_cases hm <;> decide)
          | (subst h5; fin_cases hm <;> decide)
          | (subst h6; fin_cases hm <;> decide)
          | (fin_cases hm)
      · simp [hm] at h
  · intro h
    have hall : ∀ p ∈ specLegalTransitions, ValidateTransition p.1 p.2 = none := by decide
    exact hall (f, t) h
  · intro e he
    unfold ValidateTransition at he
    split at he
    · injection he with he; subst he; rfl
    · split at he
      · cases he
      · injection he with he; subst he; rfl

/-- Witness for C1 at concrete inputs: a legal pair validates to nil, and an
unknown source state yields a transition-invalid error. -/
theorem validateTransition_matches_spec_witness :
    (("initiating", "interactive") ∈ specLegalTransitions ∧
      ValidateTransition "initiating" "interactive" = none) ∧
    (∀ e, ValidateTransition "bogus" "interactive" = some e →
      e.code = TRANSITION_INVALID) := by
  refine ⟨⟨by decide, ?_⟩, ?_⟩
  · exact (validateTransition_matches_spec "initiating" "interactive").1.mpr (by decide)
  · exact (validateTransition_matches_spec "bogus" "interactive").2

theorem sweepCell_none (now : Nat) : sweepCell now none = none := rfl

theorem sweepCell_some (now : Nat) (e : NonceEntry) :
    sweepCell now (some e) = if e.expiresAt < now then none else some e := rfl

theorem nonceSweep_apply (now : Nat) (s : NonceStoreState) (k : String) :
    nonceSweep now s k = sweepCell now (s k) := rfl

theorem consumeCell_none (now : Nat) : consumeCell now none = none := rfl

theorem consumeCell_some (now : Nat) (e : NonceEntry) :
    consumeCell now (some e) =
      if e.consumed then some e
      else if e.expiresAt < now then none
      else some { e with consumed := true } := rfl

/-- Pointwise characterization of the store returned by `Consume`. -/
theorem nonceConsume_snd_apply (s : NonceStoreState) (now : Nat) (nonce k : String) :
    (nonceConsume s now nonce).2 k =
      if k = nonce then consumeCell now (nonceSweep now s nonce)
      else nonceSweep now s k := by
  unfold nonceConsume
  cases hs : nonceSweep now s nonce with
  | none => by_cases hk : k = nonce <;> simp [hs, hk, consumeCell_none]
  | some e =>
      by_cases hc : e.consumed
      · by_cases hk : k = nonce <;> simp [hs, hk, consumeCell_some, hc]
      · by_cases hex : e.expiresAt < now <;> by_cases hk : k = nonce <;>
          simp [hs, hk, consumeCell_some, hc, hex]

/-- The boolean returned by `Consume`, characterized against the pre-state. -/
theorem nonceConsume_fst_true_iff (s : NonceStoreState) (now : Nat) (nonce : String) :
    (nonceConsume s now nonce).1 = true ↔
      ∃ e, s nonce = some e ∧ e.consumed = false ∧ now ≤ e.expiresAt := by
  unfold nonceConsume
  rw [nonceSweep_apply]
  cases hs : s nonce with
  | none => simp [sweepCell_none]
  | some e =>
      rw [sweepCell_some]
      by_cases hex : e.expiresAt < now
      · simp [hex, Nat.not_le_of_lt hex]
      · by_cases hc : e.consumed
        · simp [hex, hc]
        · simp [hex, hc, Nat.le_of_not_lt hex]

/-- C3: `Consume` succeeds iff the nonce is present, unconsumed and not past
its expiry (`now > expires_at` fails); a successful `Consume` leaves the nonce
unconsumable, unconsumability is preserved by any later `Consume` call and
forces failure; and every `Consume` removes the entries whose `expires_at`
lies strictly before now, keeping only entries with `expires_at ≥ now`. -/
theorem nonceConsume_contract (s : NonceStoreState) (now : Nat) (nonce : String) :
    ((nonceConsume s now nonce).1 = true ↔
      ∃ e, s nonce = some e ∧ e.consumed = false ∧ now ≤ e.expiresAt) ∧
    ((nonceConsume s now nonce).1 = true →
      nonceUnconsumable (nonceConsume s now nonce).2 nonce) ∧
    (∀ t2 n2, nonceUnconsumable s nonce →
      nonceUnconsumable (nonceConsume s t2 n2).2 nonce) ∧
    (nonceUnconsumable s nonce → (nonceConsume s now nonce).1 = false) ∧
    (∀ k e, s k = some e → e.expiresAt < now → (nonceConsume s now nonce).2 k = none) ∧
    (∀ k e, (nonceConsume s now nonce).2 k = some e → now ≤ e.expiresAt) := by
  refine ⟨nonceConsume_fst_true_iff s now nonce, ?_, ?_, ?_, ?_, ?_⟩
  · intro h e2 he2
    rcases (nonceConsume_fst_true_iff s now nonce).mp h with ⟨e, hs, hc, hle⟩
    rw [nonceConsume_snd_apply, if_pos rfl, nonceSweep_apply, hs, sweepCell_some,
      if_neg (Nat.not_lt_of_le hle), consumeCell_some, if_neg (by simp [hc]),
      if_neg (Nat.not_lt_of_le hle)] at he2
    injection he2 with he2
    rw [← he2]
  · intro t2 n2 hinv e2 he2
    rw [nonceConsume_snd_apply] at he2
    by_cases hk : nonce = n2
    · rw [if_pos hk, nonceSweep_apply] at he2
      subst hk
      cases hs : s nonce with
      | none => rw [hs, sweepCell_none, consumeCell_none] at he2; cases he2
      | some e =>
          have hc : e.consumed = true := hinv e hs
          rw [hs, sweepCell_some] at he2
          by_cases hex : e.expiresAt < t2
          · rw [if_pos hex, consumeCell_none] at he2; cases he2
          · rw [if_neg hex, consumeCell_some, if_pos hc] at he2
            injection he2 with he2
            rw [← he2]; exact hc
    · rw [if_neg hk, nonceSweep_apply] at he2
      cases hs : s nonce with
      | none => rw [hs, sweepCell_none] at he2; cases he2
      | some e =>
          rw [hs, sweepCell_some] at he2
          by_cases hex : e.expiresAt < t2
          · rw [if_pos hex] at he2; cases he2
          · rw [if_neg hex] at he2
            injection he2 with he2
            rw [← he2]; exact hinv e hs
  · intro hinv
    cases hb : (nonceConsume s now nonce).1 with
    | false => rfl
    | true =>
        rcases (nonceConsume_fst_true_iff s now nonce).mp hb with ⟨e, hs, hc, -⟩
        rw [hinv e hs] at hc
        cases hc
  · intro k e hk hex
    rw [nonceConsume_snd_apply]
    by_cases hkn : k = nonce
    · rw [if_pos hkn, nonceSweep_apply, ← hkn, hk, sweepCell_some, if_pos hex,
        consumeCell_none]
    · rw [if_neg hkn, nonceSweep_apply, hk, sweepCell_some, if_pos hex]
  · intro k e hk
    rw [nonceConsume_snd_apply] at hk
    by_cases hkn : k = nonce
    · rw [if_pos hkn, nonceSweep_apply] at hk
      cases hs : s nonce with
      | none => rw [hs, sweepCell_none, consumeCell_none] at hk; cases hk
      | some e0 =>
          rw [hs, sweepCell_some] at hk
          by_cases hex : e0.expiresAt < now
          · rw [if_pos hex, consumeCell_none] at hk; cases hk
          · rw [if_neg hex, consumeCell_some] at hk
            by_cases hc : e0.consumed
            · rw [if_pos hc] at hk
              injection hk with hk
              rw [← hk]; exact Nat.le_of_not_lt hex
            · rw [if_neg hc, if_neg hex] at hk
              injection hk with hk
              rw [← hk]; exact Nat.le_of_not_lt hex
    · rw [if_neg hkn, nonceSweep_apply] at hk
      cases hs : s k with
      | none => rw [hs, sweepCell_none] at hk; cases hk
      | some e0 =>
          rw [hs, sweepCell_some] at hk
          by_cases hex : e0.expiresAt < now
          · rw [if_pos hex] at hk; cases hk
          · rw [if_neg hex] at hk
            injection hk with hk
            rw [← hk]; exact Nat.le_of_not_lt hex

/-- Witness for C3: in a store holding nonce "n1" unconsumed until time 10,
consuming at time 5 succeeds, and the nonce is then unconsumable. -/
theorem nonceConsume_contract_witness :
    ((nonceConsume (fun k => if k = "n1" then some ⟨10, false⟩ else none) 5 "n1").1 = true) ∧
    nonceUnconsumable
      ((nonceConsume (fun k => if k = "n1" then some ⟨10, false⟩ else none) 5 "n1").2) "n1" := by
  have h := nonceConsume_contract (fun k => if k = "n1" then some ⟨10, false⟩ else none) 5 "n1"
  have htrue := h.1.mpr ⟨⟨10, false⟩, by decide, rfl, by decide⟩
  exact ⟨htrue, h.2.1 htrue⟩

theorem updateAndTransition_find_error {σ : Type} (ops : TransferStoreOps σ) (s : σ)
    (id : String) (u : TransferUpdate) (next : TransferStatus) (hook : HookEvent)
    (msg : String) (h : ops.findByID s id = .error msg) :
    updateAndTransition ops s id u next hook =
      ⟨.error ⟨STORE_ERROR, "failed to load transfer"⟩, s, []⟩ := by
  simp only [updateAndTransition, h]

theorem updateAndTransition_invalid {σ : Type} (ops : TransferStoreOps σ) (s : σ)
    (id : String) (u : TransferUpdate) (next : TransferStatus) (hook : HookEvent)
    (tr : Transfer) (e : AnchorError) (h1 : ops.findByID s id = .ok tr)
    (h2 : ValidateTransition tr.Status next = some e) :
    updateAndTransition ops s id u next hook = ⟨.error e, s, []⟩ := by
  simp only [updateAndTransition, h1, h2]

theorem updateAndTransition_update_error {σ : Type} (ops : TransferStoreOps σ) (s : σ)
    (id : String) (u : TransferUpdate) (next : TransferStatus) (hook : HookEvent)
    (tr : Transfer) (msg : String) (h1 : ops.findByID s id = .ok tr)
    (h2 : ValidateTransition tr.Status next = none)
    (h3 : ops.update s id { u with Status := some next } = .error msg) :
    updateAndTransition ops s id u next hook =
      ⟨.error ⟨STORE_ERROR, "failed to update transfer"⟩, s, []⟩ := by
  simp only [updateAndTransition, h1, h2, h3]

theorem transition_find_error {σ : Type} (ops : TransferStoreOps σ) (s : σ)
    (id : String) (next : TransferStatus) (message : String) (now : Nat)
    (msg : String) (h : ops.findByID s id = .error msg) :
    transition ops s id next message now =
      ⟨.error ⟨STORE_ERROR, "failed to load transfer"⟩, s, []⟩ := by
  simp only [transition, h]

theorem transition_invalid {σ : Type} (ops : TransferStoreOps σ) (s : σ)
    (id : String) (next : TransferStatus) (message : String) (now : Nat)
    (tr : Transfer) (e : AnchorError) (h1 : ops.findByID s id = .ok tr)
    (h2 : ValidateTransition tr.Status next = some e) :
    transition ops s id next message now = ⟨.error e, s, []⟩ := by
  simp only [transition, h1, h2]

theorem transition_update_error {σ : Type} (ops : TransferStoreOps σ) (s : σ)
    (id : String) (next : TransferStatus) (message : String) (now : Nat)
    (tr : Transfer) (h1 : ops.findByID s id = .ok tr)
    (h2 : ValidateTransition tr.Status next = none)
    (h3 : ∀ u s2, ops.update s id u ≠ .ok s2) :
    transition ops s id next message now =
      ⟨.error ⟨STORE_ERROR, "failed to update transfer"⟩, s, []⟩ := by
  simp only [transition, h1, h2]
  split
  · rfl
  · rename_i s2 heq
    exact absurd heq (h3 _ s2)

/-- Both error branches of `ValidateTransition` carry the transition-invalid
code (anchor/fsm.go builds each error with `errors.TRANSITION_INVALID`). -/
theorem validateTransition_some_code (f t : TransferStatus) (e : AnchorError)
    (he : ValidateTransition f t = some e) : e.code = TRANSITION_INVALID := by
  unfold ValidateTransition at he
  split at he
  · injection he with he; subst he; rfl
  · split at he
    · cases he
    · injection he with he; subst he; rfl

theorem updateAndTransition_update_fails {σ : Type} (ops : TransferStoreOps σ) (s : σ)
    (id : String) (u : TransferUpdate) (next : TransferStatus) (hook : HookEvent)
    (tr : Transfer) (h1 : ops.findByID s id = .ok tr)
    (h2 : ValidateTransition tr.Status next = none)
    (h3 : ∀ u2 s2, ops.update s id u2 ≠ .ok s2) :
    updateAndTransition ops s id u next hook =
      ⟨.error ⟨STORE_ERROR, "failed to update transfer"⟩, s, []⟩ := by
  simp only [updateAndTransition, h1, h2]
  split
  · rfl
  · rename_i s2 heq
    exact absurd heq (h3 _ s2)

/-- C6: for every transfer-manager mutation path (the four `Notify*` APIs,
`Deny`, `Cancel`, `CompleteInteractive`): a failing load returns store-error
with the store untouched and no hook fired; an illegal FSM step returns an
error with code transition-invalid, the store untouched and no hook fired;
and a failing store write returns store-error with the store untouched and no
hook fired. -/
theorem transferMutation_error_handling {σ : Type} (ops : TransferStoreOps σ) (s : σ)
    (transferID : String) (now : Nat) (m : MutationCall) :
    ((∃ msg, ops.findByID s transferID = .error msg) →
      ∃ e2, runMutation ops s transferID now m = ⟨.error e2, s, []⟩ ∧
        e2.code = STORE_ERROR) ∧
    (∀ tr e, ops.findByID s transferID = .ok tr →
      ValidateTransition tr.Status (mutationTarget tr m) = some e →
      ∃ e2, runMutation ops s transferID now m = ⟨.error e2, s, []⟩ ∧
        e2.code = TRANSITION_INVALID) ∧
    (∀ tr, ops.findByID s transferID = .ok tr →
      ValidateTransition tr.Status (mutationTarget tr m) = none →
      (m = .completeInteractive → tr.Mode = ModeInteractive) →
      (∀ u s2, ops.update s transferID u ≠ .ok s2) →
      ∃ e2, runMutation ops s transferID now m = ⟨.error e2, s, []⟩ ∧
        e2.code = STORE_ERROR) := by
  refine ⟨?_, ?_, ?_⟩
  · rintro ⟨msg, hmsg⟩
    refine ⟨⟨STORE_ERROR, "failed to load transfer"⟩, ?_, rfl⟩
    cases m with
    | notifyFundsReceived d =>
        exact updateAndTransition_find_error ops s transferID _ _ _ msg hmsg
    | notifyPaymentSent h =>
        exact updateAndTransition_find_error ops s transferID _ _ _ msg hmsg
    | notifyPaymentReceived h =>
        exact updateAndTransition_find_error ops s transferID _ _ _ msg hmsg
    | notifyDisbursementSent r =>
        exact updateAndTransition_find_error ops s transferID _ _ _ msg hmsg
    | deny r => exact transition_find_error ops s transferID _ _ now msg hmsg
    | cancel r => exact transition_find_error ops s transferID _ _ now msg hmsg
    | completeInteractive => simp only [runMutation, hmsg]
  · intro tr e hfind hval
    cases m with
    | notifyFundsReceived d =>
        exact ⟨e, updateAndTransition_invalid ops s transferID _ _ _ tr e hfind hval,
          validateTransition_some_code _ _ e hval⟩
    | notifyPaymentSent h =>
        exact ⟨e, updateAndTransition_invalid ops s transferID _ _ _ tr e hfind hval,
          validateTransition_some_code _ _ e hval⟩
    | notifyPaymentReceived h =>
        exact ⟨e, updateAndTransition_invalid ops s transferID _ _ _ tr e hfind hval,
          validateTransition_some_code _ _ e hval⟩
    | notifyDisbursementSent r =>
        exact ⟨e, updateAndTransition_invalid ops s transferID _ _ _ tr e hfind hval,
          validateTransition_some_code _ _ e hval⟩
    | deny r =>
        exact ⟨e, transition_invalid ops s transferID _ _ now tr e hfind hval,
          validateTransition_some_code _ _ e hval⟩
    | cancel r =>
        exact ⟨e, transition_invalid ops s transferID _ _ now tr e hfind hval,
          validateTransition_some_code _ _ e hval⟩
    | completeInteractive =>
        simp only [mutationTarget] at hval
        by_cases hmode : tr.Mode = ModeInteractive
        · refine ⟨e, ?_, validateTransition_some_code _ _ e hval⟩
          simp only [runMutation, hfind]
          rw [if_neg (fun hn => hn hmode)]
          exact transition_invalid ops s transferID _ _ now tr e hfind hval
        · refine ⟨⟨TRANSITION_INVALID, "transfer not in interactive mode"⟩, ?_, rfl⟩
          simp only [runMutation, hfind]
          rw [if_pos hmode]
  · intro tr hfind hval hmode hupd
    refine ⟨⟨STORE_ERROR, "failed to update transfer"⟩, ?_, rfl⟩
    cases m with
    | notifyFundsReceived d =>
        exact updateAndTransition_update_fails ops s transferID _ _ _ tr hfind hval hupd
    | notifyPaymentSent h =>
        exact updateAndTransition_update_fails ops s transferID _ _ _ tr hfind hval hupd
    | notifyPaymentReceived h =>
        exact updateAndTransition_update_fails ops s transferID _ _ _ tr hfind hval hupd
    | notifyDisbursementSent r =>
        exact updateAndTransition_update_fails ops s transferID _ _ _ tr hfind hval hupd
    | deny r => exact transition_update_error ops s transferID _ _ now tr hfind hval hupd
    | cancel r => exact transition_update_error ops s transferID _ _ now tr hfind hval hupd
    | completeInteractive =>
        have hm : tr.Mode = ModeInteractive := hmode rfl
        simp only [mutationTarget] at hval
        simp only [runMutation, hfind]
        rw [if_neg (fun hn => hn hm)]
        exact transition_update_error ops s transferID _ _ now tr hfind hval hupd

/-- Witness for C6: notifying a payment on a completed transfer yields
transition-invalid with nothing written, and a failing store write on a legal
step yields store-error with nothing written. -/
theorem transferMutation_error_handling_witness :
    (∃ e2, runMutation witnessStoreOps true "t1" 0 (.notifyPaymentReceived "h1") =
        ⟨.error e2, true, []⟩ ∧ e2.code = TRANSITION_INVALID) ∧
    (∃ e2, runMutation witnessStoreOps false "t1" 0
        (.notifyFundsReceived ⟨"r1", "10"⟩) = ⟨.error e2, false, []⟩ ∧
      e2.code = STORE_ERROR) := by
  constructor
  · exact (transferMutation_error_handling witnessStoreOps true "t1" 0 _).2.1 trCompleted
      ⟨TRANSITION_INVALID, "illegal transition from completed to pending_stellar"⟩
      rfl (by decide)
  · exact (transferMutation_error_handling witnessStoreOps false "t1" 0 _).2.2
      trPendingExternal rfl (by decide) (fun h => nomatch h)
      (by intro u s2 h; simp [witnessStoreOps] at h)

/-- C5: once a token is minted for a transfer that the store resolves, a peek
returns that transfer and leaves the token map unchanged (so the N+1-th peek
equals the N-th), the first consume returns the transfer and deletes the
binding, and every subsequent peek or consume fails with
interactive-token-invalid. -/
theorem interactiveToken_lifecycle {σ : Type} (ops : TransferStoreOps σ) (s : σ)
    (t0 : TokenMap) (token transferID : String) (tr : Transfer)
    (hfind : ops.findByID s transferID = .ok tr) :
    (peekInteractiveToken ops s (mintInteractiveToken t0 token transferID) token =
      (.ok tr, mintInteractiveToken t0 token transferID)) ∧
    ((consumeInteractiveToken ops s (mintInteractiveToken t0 token transferID) token).1 =
      .ok tr) ∧
    ((consumeInteractiveToken ops s (mintInteractiveToken t0 token transferID) token).2
      token = none) ∧
    ((peekInteractiveToken ops s
        (consumeInteractiveToken ops s (mintInteractiveToken t0 token transferID) token).2
        token).1 =
      .error ⟨INTERACTIVE_TOKEN_INVALID, "interactive token invalid"⟩) ∧
    ((consumeInteractiveToken ops s
        (consumeInteractiveToken ops s (mintInteractiveToken t0 token transferID) token).2
        token).1 =
      .error ⟨INTERACTIVE_TOKEN_INVALID, "interactive token invalid"⟩) := by
  have hmint : mintInteractiveToken t0 token transferID token = some transferID := by
    unfold mintInteractiveToken
    rw [if_pos rfl]
  have hsnd : (consumeInteractiveToken ops s (mintInteractiveToken t0 token transferID)
      token).2 token = none := by
    unfold consumeInteractiveToken
    rw [hmint]
    simp only [hfind]
    simp
  refine ⟨?_, ?_, hsnd, ?_, ?_⟩
  · unfold peekInteractiveToken
    rw [hmint]
    simp only [hfind]
  · unfold consumeInteractiveToken
    rw [hmint]
    simp only [hfind]
  · set t2 := (consumeInteractiveToken ops s (mintInteractiveToken t0 token transferID)
      token).2 with ht2
    unfold peekInteractiveToken
    rw [hsnd]
  · set t2 := (consumeInteractiveToken ops s (mintInteractiveToken t0 token transferID)
      token).2 with ht2
    conv_lhs => rw [consumeInteractiveToken.eq_def, hsnd]

/-- Witness for C5 on a concrete registry and store: the false store state of
`witnessStoreOps` resolves every id to the pending-external transfer. -/
theorem interactiveToken_lifecycle_witness :
    (peekInteractiveToken witnessStoreOps false
        (mintInteractiveToken (fun _ => none) "tok" "t1") "tok" =
      (.ok trPendingExternal, mintInteractiveToken (fun _ => none) "tok" "t1")) ∧
    ((consumeInteractiveToken witnessStoreOps false
        (mintInteractiveToken (fun _ => none) "tok" "t1") "tok").1 = .ok trPendingExternal) ∧
    ((consumeInteractiveToken witnessStoreOps false
        (mintInteractiveToken (fun _ => none) "tok" "t1") "tok").2 "tok" = none) ∧
    ((peekInteractiveToken witnessStoreOps false
        (consumeInteractiveToken witnessStoreOps false
          (mintInteractiveToken (fun _ => none) "tok" "t1") "tok").2 "tok").1 =
      .error ⟨INTERACTIVE_TOKEN_INVALID, "interactive token invalid"⟩) ∧
    ((consumeInteractiveToken witnessStoreOps false
        (consumeInteractiveToken witnessStoreOps false
          (mintInteractiveToken (fun _ => none) "tok" "t1") "tok").2 "tok").1 =
      .error ⟨INTERACTIVE_TOKEN_INVALID, "interactive token invalid"⟩) :=
  interactiveToken_lifecycle witnessStoreOps false (fun _ => none) "tok" "t1"
    trPendingExternal rfl

theorem transition_mem_success (s1 : MemStore) (id : String) (tr : Transfer)
    (next : TransferStatus) (now : Nat) (h1 : s1 id = some tr)
    (h2 : ValidateTransition tr.Status next = none) (h3 : ¬ next = StatusCompleted) :
    transition (memStoreOps now) s1 id next "" now =
      ⟨.ok (),
        fun k => if k = id then some (applyTransferUpdate tr { Status := some next } now)
          else s1 k,
        [(HookTransferStatusChanged, applyTransferUpdate tr { Status := some next } now)]⟩ := by
  unfold transition memStoreOps memFindByID memUpdate
  simp only [h1, h2]
  rw [if_neg (by decide : ¬ goTrimSpace "" ≠ "")]
  rw [if_neg h3]
  simp [h1]

theorem initiateDeposit_api_eq (s0 : MemStore) (dreq : DepositRequest) (id : String)
    (now : Nat) (hd1 : goTrimSpace dreq.Account ≠ "") (hd2 : goTrimSpace dreq.AssetCode ≠ "")
    (hd3 : goTrimSpace dreq.Amount ≠ "") (hdm : dreq.Mode = ModeAPI)
    (hfresh : s0 id = none) :
    InitiateDeposit (memStoreOps now) s0 dreq id "" "" now =
      ⟨.ok { ID := id, Instructions := "deposit initiated", ETA := 0 },
        fun k =>
          if k = id then
            some (applyTransferUpdate (newDepositTransfer dreq id now)
              { Status := some StatusPendingExternal } now)
          else if k = id then some (newDepositTransfer dreq id now) else s0 k,
        [(HookTransferStatusChanged,
            applyTransferUpdate (newDepositTransfer dreq id now)
              { Status := some StatusPendingExternal } now),
          (HookDepositInitiated, newDepositTransfer dreq id now)]⟩ := by
  have hmodne : ¬ dreq.Mode = ModeInteractive := by rw [hdm]; decide
  have hbid : (newDepositTransfer dreq id now).ID = id := rfl
  have hsave : memSave s0 (newDepositTransfer dreq id now) =
      .ok (fun k => if k = id then some (newDepositTransfer dreq id now) else s0 k) := by
    unfold memSave
    rw [hbid, hfresh]
  have hs1 : (fun k => if k = id then some (newDepositTransfer dreq id now) else s0 k) id =
      some (newDepositTransfer dreq id now) := by simp
  have hval : ValidateTransition (newDepositTransfer dreq id now).Status
      StatusPendingExternal = none := by
    rw [show (newDepositTransfer dreq id now).Status = StatusInitiating from rfl]
    decide
  have htrans := transition_mem_success
    (fun k => if k = id then some (newDepositTransfer dreq id now) else s0 k) id
    (newDepositTransfer dreq id now) StatusPendingExternal now hs1 hval (by decide)
  have hsave2 : (memStoreOps now).save s0 (newDepositTransfer dreq id now) =
      .ok (fun k => if k = id then some (newDepositTransfer dreq id now) else s0 k) := hsave
  unfold InitiateDeposit
  rw [if_neg (by simp [hd1, hd2, hd3])]
  dsimp only
  rw [if_neg hmodne]
  rw [hsave2]
  dsimp only
  rw [show (newDepositTransfer dreq id now).Mode = dreq.Mode from rfl]
  rw [if_neg hmodne]
  rw [hbid]
  rw [htrans]
  rfl

theorem initiateWithdrawal_api_eq (s0 : MemStore) (wreq : WithdrawalRequest)
    (id dist : String) (now : Nat) (hw1 : goTrimSpace wreq.Account ≠ "")
    (hw2 : goTrimSpace wreq.AssetCode ≠ "") (hw3 : goTrimSpace wreq.Amount ≠ "")
    (hwm : wreq.Mode = ModeAPI) (hfresh : s0 id = none) :
    InitiateWithdrawal (memStoreOps now) s0 wreq id "" "" dist now =
      ⟨.ok { ID := id, InteractiveURL := "", StellarAccount := dist, StellarMemo := id,
             StellarMemoType := "text", ETA := 0 },
        fun k => if k = id then some (apiWithdrawalTransfer wreq id now) else s0 k,
        [(HookWithdrawalInitiated, apiWithdrawalTransfer wreq id now)]⟩ := by
  have hmodne : ¬ wreq.Mode = ModeInteractive := by rw [hwm]; decide
  have hsave2 : (memStoreOps now).save s0 (apiWithdrawalTransfer wreq id now) =
      .ok (fun k => if k = id then some (apiWithdrawalTransfer wreq id now) else s0 k) := by
    show memSave s0 (apiWithdrawalTransfer wreq id now) = _
    unfold memSave
    rw [show (apiWithdrawalTransfer wreq id now).ID = id from rfl, hfresh]
  unfold InitiateWithdrawal
  rw [if_neg (by simp [hw1, hw2, hw3])]
  dsimp only
  rw [if_neg hmodne]
  rw [show (memStoreOps now).save s0
      { newWithdrawalTransfer wreq id now with Status := StatusPaymentRequired } =
      (memStoreOps now).save s0 (apiWithdrawalTransfer wreq id now) from rfl]
  rw [hsave2]
  rfl

/-- C8: for a valid API-mode request on a fresh id against the in-memory
store, `InitiateDeposit` succeeds, steps the stored transfer to
pending-external (after first persisting it as initiating) and fires the
deposit-initiated hook; `InitiateWithdrawal` succeeds, persists the transfer
as payment-required and fires the withdrawal-initiated hook; and each
transfer's sequence of statuses observed in the store is a walk in the
legal-transition relation. -/
theorem initiate_api_walk (s0 : MemStore) (dreq : DepositRequest)
    (wreq : WithdrawalRequest) (id id2 dist : String) (now : Nat)
    (hd1 : goTrimSpace dreq.Account ≠ "") (hd2 : goTrimSpace dreq.AssetCode ≠ "")
    (hd3 : goTrimSpace dreq.Amount ≠ "") (hdm : dreq.Mode = ModeAPI)
    (hfresh : s0 id = none)
    (hw1 : goTrimSpace wreq.Account ≠ "") (hw2 : goTrimSpace wreq.AssetCode ≠ "")
    (hw3 : goTrimSpace wreq.Amount ≠ "") (hwm : wreq.Mode = ModeAPI)
    (hfresh2 : s0 id2 = none) :
    ((InitiateDeposit (memStoreOps now) s0 dreq id "" "" now).result =
        .ok { ID := id, Instructions := "deposit initiated", ETA := 0 } ∧
      (∃ tr2, (InitiateDeposit (memStoreOps now) s0 dreq id "" "" now).store id = some tr2 ∧
        tr2.Status = StatusPendingExternal) ∧
      (∃ trh, (HookDepositInitiated, trh) ∈
        (InitiateDeposit (memStoreOps now) s0 dreq id "" "" now).hooks) ∧
      (∃ s1, memSave s0 (newDepositTransfer dreq id now) = .ok s1 ∧
        (∃ tr1, s1 id = some tr1 ∧ tr1.Status = StatusInitiating)) ∧
      List.Chain' (fun a b => (a, b) ∈ specLegalTransitions)
        [StatusInitiating, StatusPendingExternal]) ∧
    ((InitiateWithdrawal (memStoreOps now) s0 wreq id2 "" "" dist now).result =
        .ok { ID := id2, InteractiveURL := "", StellarAccount := dist, StellarMemo := id2,
              StellarMemoType := "text", ETA := 0 } ∧
      (∃ tr2, (InitiateWithdrawal (memStoreOps now) s0 wreq id2 "" "" dist now).store id2 =
          some tr2 ∧ tr2.Status = StatusPaymentRequired) ∧
      (∃ trh, (HookWithdrawalInitiated, trh) ∈
        (InitiateWithdrawal (memStoreOps now) s0 wreq id2 "" "" dist now).hooks) ∧
      List.Chain' (fun a b => (a, b) ∈ specLegalTransitions) [StatusPaymentRequired]) := by
  rw [initiateDeposit_api_eq s0 dreq id now hd1 hd2 hd3 hdm hfresh]
  rw [initiateWithdrawal_api_eq s0 wreq id2 dist now hw1 hw2 hw3 hwm hfresh2]
  refine ⟨⟨rfl, ?_, ?_, ?_, ?_⟩, rfl, ?_, ?_, ?_⟩
  · refine ⟨applyTransferUpdate (newDepositTransfer dreq id now)
      { Status := some StatusPendingExternal } now, ?_, rfl⟩
    show (if id = id then _ else _) = _
    rw [if_pos rfl]
  · exact ⟨newDepositTransfer dreq id now, by simp⟩
  · refine ⟨fun k => if k = id then some (newDepositTransfer dreq id now) else s0 k, ?_,
      newDepositTransfer dreq id now, ?_, rfl⟩
    · unfold memSave
      rw [show (newDepositTransfer dreq id now).ID = id from rfl, hfresh]
    · show (if id = id then _ else _) = _
      rw [if_pos rfl]
  · refine List.chain'_cons.mpr ⟨by decide, ?_⟩
    exact List.chain'_singleton _
  · refine ⟨apiWithdrawalTransfer wreq id2 now, ?_, rfl⟩
    show (if id2 = id2 then _ else _) = _
    rw [if_pos rfl]
  · exact ⟨apiWithdrawalTransfer wreq id2 now, by simp⟩
  · exact List.chain'_singleton _

/-- Witness for C8 at a concrete valid API-mode deposit and withdrawal. -/
theorem initiate_api_walk_witness :
    (InitiateDeposit (memStoreOps 7) (fun _ => none) ⟨"GA", "USDC", "10", "api"⟩
        "d1" "" "" 7).result =
      .ok { ID := "d1", Instructions := "deposit initiated", ETA := 0 } ∧
    (∃ tr2, (InitiateWithdrawal (memStoreOps 7) (fun _ => none)
        ⟨"GB", "USDC", "5", "api", "", ""⟩ "w1" "" "" "GD" 7).store "w1" = some tr2 ∧
      tr2.Status = StatusPaymentRequired) := by
  have h := initiate_api_walk (fun _ => none) ⟨"GA", "USDC", "10", "api"⟩
    ⟨"GB", "USDC", "5", "api", "", ""⟩ "d1" "w1" "GD" 7
    (by decide) (by decide) (by decide) rfl rfl
    (by decide) (by decide) (by decide) rfl rfl
  exact ⟨h.1.1, h.2.2.1⟩

theorem observerWaits_le_max (initial maxB : Nat) (h : initial ≤ maxB) :
    ∀ (events : List StreamEvent) (b : Nat), b ≤ maxB →
      ∀ w ∈ observerWaits initial maxB b events, w ≤ maxB := by
  intro events
  induction events with
  | nil => intro b _ w hw; cases hw
  | cons ev rest ih =>
      intro b hb w hw
      cases ev with
      | operationReceived =>
          exact ih initial h w hw
      | streamFailure =>
          rw [observerWaits] at hw
          rcases List.mem_cons.mp hw with hw | hw
          · rw [hw]; exact hb
          · by_cases hd : b * 2 > maxB
            · exact ih maxB le_rfl w (by simpa [hd] using hw)
            · exact ih (b * 2) (Nat.le_of_not_lt hd) w (by simpa [hd] using hw)

/-- Counterexample for C9 as stated: with `WithReconnectBackoff(2, 1)` (an
initial backoff above the max, which the constructor accepts unchecked), the
first reconnection wait is 2, exceeding the max backoff 1. -/
theorem observer_backoff_counterexample :
    2 ∈ observerStartWaits 2 1 [.streamFailure] ∧ ¬ 2 ≤ 1 := by
  constructor
  · rw [observerStartWaits, observerWaits]
    exact List.mem_cons_self _ _
  · decide

/-- C9 (amended): when the configured initial backoff does not exceed the max
backoff — true of the defaults 1s/60s — no wait applied before a reconnection
attempt ever exceeds the max backoff, for any interleaving of stream failures
and received operations. -/
theorem observerStartWaits_le_max (initial maxB : Nat) (h : initial ≤ maxB)
    (events : List StreamEvent) (w : Nat) (hw : w ∈ observerStartWaits initial maxB events) :
    w ≤ maxB :=
  observerWaits_le_max initial maxB h events initial h w hw

/-- Witness for C9: with the default 1s initial and 60s max backoff, the wait
after the second consecutive failure is 2 and is within the bound. -/
theorem observerStartWaits_le_max_witness :
    1 ≤ 60 ∧
    2 ∈ observerStartWaits 1 60 [.streamFailure, .streamFailure] ∧
    2 ≤ 60 := by
  refine ⟨by decide, by decide, ?_⟩
  exact observerStartWaits_le_max 1 60 (by decide)
    [.streamFailure, .streamFailure] 2 (by decide)

theorem goStringLe_iff_not_lex (a b : List Char) :
    goStringLe a b = true ↔ ¬ List.Lex (· < ·) b a := by
  induction a generalizing b with
  | nil =>
      cases b with
      | nil => simp [goStringLe]
      | cons y ys =>
          simp only [goStringLe, true_iff]
          intro hlex
          cases hlex
  | cons x xs ih =>
      cases b with
      | nil =>
          simp only [goStringLe, Bool.false_eq_true, false_iff, not_not]
          exact List.Lex.nil
      | cons y ys =>
          by_cases hxy : x < y
          · simp only [goStringLe, if_pos hxy, true_iff]
            intro hlex
            cases hlex with
            | cons h => exact absurd hxy (lt_irrefl x)
            | rel h => exact absurd hxy (asymm h)
          · by_cases hyx : y < x
            · simp only [goStringLe, if_neg hxy, if_pos hyx, Bool.false_eq_true,
                false_iff, not_not]
              exact List.Lex.rel hyx
            · have hxeq : x = y := le_antisymm (le_of_not_lt hyx) (le_of_not_lt hxy)
              subst hxeq
              simp only [goStringLe, if_neg hxy, if_neg hyx]
              rw [ih ys]
              constructor
              · intro h hlex
                cases hlex with
                | cons h2 => exact h h2
                | rel h2 => exact absurd h2 (lt_irrefl x)
              · intro h hlex
                exact h (List.Lex.cons hlex)

/-- C10: `WithMinAmount(min)` passes an event iff the event's amount is not
lexicographically below `min` (byte-wise string order, not numeric order);
in particular an amount of "9" passes a minimum of "10" although its numeric
value is smaller. -/
theorem withMinAmount_lexicographic :
    (∀ minAmount evt, WithMinAmount minAmount evt = true ↔
      ¬ List.Lex (· < ·) evt.Amount.data minAmount.data) ∧
    (∀ evt, WithMinAmount "10" evt = true ↔
      ¬ List.Lex (· < ·) evt.Amount.data "10".data) ∧
    WithMinAmount "10" ⟨"op1", "GS", "GD", "native", "9", "", "c1", "h1"⟩ = true ∧
    decimalValue "9".data < decimalValue "10".data := by
  refine ⟨?_, ?_, by decide, by decide⟩
  · intro minAmount evt
    exact goStringLe_iff_not_lex minAmount.data evt.Amount.data
  · intro evt
    exact goStringLe_iff_not_lex "10".data evt.Amount.data

/-- Witness for C10 at a concrete event: amount "50" against minimum "10". -/
theorem withMinAmount_lexicographic_witness :
    (WithMinAmount "10" ⟨"op2", "GS", "GD", "native", "50", "", "c2", "h2"⟩ = true ↔
      ¬ List.Lex (· < ·) "50".data "10".data) ∧
    WithMinAmount "10" ⟨"op2", "GS", "GD", "native", "50", "", "c2", "h2"⟩ = true :=
  ⟨withMinAmount_lexicographic.1 "10" ⟨"op2", "GS", "GD", "native", "50", "", "c2", "h2"⟩,
    by decide⟩

theorem sigLoop_ok (verifySig : String → Nat → Bool) (serverKey : String)
    (clientSigners : List (String × Int)) :
    ∀ (sigs : List ChallengeSig) (ss0 : Bool) (t0 : Int) (seen : List Nat) (ss : Bool) (tw : Int),
      sigLoop verifySig serverKey clientSigners sigs ss0 t0 seen = .ok (ss, tw) →
      ss = (ss0 || sigs.any (fun sig => verifySig serverKey sig.data)) ∧
      tw = t0 + clientWeightSum verifySig serverKey clientSigners sigs ∧
      (∀ sig ∈ sigs, verifySig serverKey sig.data = false →
        ∃ cs ∈ clientSigners, verifySig cs.1 sig.data = true) ∧
      (sigs.map (fun sig => sig.hint)).Nodup ∧
      (∀ hh ∈ sigs.map (fun sig => sig.hint), hh ∉ seen) := by
  intro sigs
  induction sigs with
  | nil =>
      intro ss0 t0 seen ss tw h
      rw [sigLoop] at h
      injection h with h
      injection h with h1 h2
      refine ⟨by simp [← h1], by simp [← h2, clientWeightSum], ?_, by simp, by simp⟩
      intro sig hsig
      cases hsig
  | cons sig rest ih =>
      intro ss0 t0 seen ss tw h
      rw [sigLoop] at h
      by_cases hdup : sig.hint ∈ seen
      · rw [if_pos hdup] at h; cases h
      · rw [if_neg hdup] at h
        by_cases hserver : verifySig serverKey sig.data
        · rw [if_pos hserver] at h
          rcases ih true t0 (sig.hint :: seen) ss tw h with ⟨hss, htw, hrec, hnd, hseen⟩
          refine ⟨by simp [hss, hserver], ?_, ?_, ?_, ?_⟩
          · rw [htw]
            simp [clientWeightSum, clientSigWeight, hserver]
          · intro s2 hs2 hns
            rcases List.mem_cons.mp hs2 with rfl | hs2
            · rw [hserver] at hns; cases hns
            · exact hrec s2 hs2 hns
          · rw [List.map_cons]
            refine List.nodup_cons.mpr ⟨?_, hnd⟩
            intro hmem
            exact (hseen _ hmem) (List.mem_cons_self _ _)
          · intro hh hmem
            rw [List.map_cons] at hmem
            rcases List.mem_cons.mp hmem with rfl | hmem2
            · exact hdup
            · intro hcon
              exact (hseen hh hmem2) (List.mem_cons_of_mem _ hcon)
        · rw [if_neg hserver] at h
          cases hfind : clientSigners.find? (fun cs => verifySig cs.1 sig.data) with
          | none => rw [hfind] at h; cases h
          | some cs =>
              rw [hfind] at h
              rcases ih ss0 (t0 + cs.2) (sig.hint :: seen) ss tw h with
                ⟨hss, htw, hrec, hnd, hseen⟩
              have hserver2 : verifySig serverKey sig.data = false := by
                simpa using hserver
              refine ⟨by simp [hss, hserver2], ?_, ?_, ?_, ?_⟩
              · rw [htw]
                simp [clientWeightSum, clientSigWeight, hserver2, hfind]
                omega
              · intro s2 hs2 hns
                rcases List.mem_cons.mp hs2 with rfl | hs2
                · exact ⟨cs, List.mem_of_find?_eq_some hfind,
                    by simpa using List.find?_some hfind⟩
                · exact hrec s2 hs2 hns
              · rw [List.map_cons]
                refine List.nodup_cons.mpr ⟨?_, hnd⟩
                intro hmem
                exact (hseen _ hmem) (List.mem_cons_self _ _)
              · intro hh hmem
                rw [List.map_cons] at hmem
                rcases List.mem_cons.mp hmem with rfl | hmem2
                · exact hdup
                · intro hcon
                  exact (hseen hh hmem2) (List.mem_cons_of_mem _ hcon)

theorem verifyChallengeSignatures_ok (verifySig : String → Nat → Bool)
    (parseOk : String → Bool) (serverPublicKey clientAccount : String)
    (fetcher : Option (Except String (List AccountSigner × Thresholds)))
    (sigs : List ChallengeSig)
    (h : verifyChallengeSignatures verifySig parseOk serverPublicKey clientAccount
      fetcher sigs = .ok ()) :
    ∃ clientSigners medThreshold,
      resolveClientSigners parseOk clientAccount fetcher = .ok (clientSigners, medThreshold) ∧
      (∃ sig ∈ sigs, verifySig serverPublicKey sig.data = true) ∧
      (sigs.map (fun sig => sig.hint)).Nodup ∧
      (∀ sig ∈ sigs, verifySig serverPublicKey sig.data = false →
        ∃ cs ∈ clientSigners, verifySig cs.1 sig.data = true) ∧
      medThreshold ≤ clientWeightSum verifySig serverPublicKey clientSigners sigs ∧
      (medThreshold = 0 → ∃ sig ∈ sigs, verifySig serverPublicKey sig.data = false) := by
  rw [verifyChallengeSignatures] at h
  split at h
  · cases h
  · split at h
    · cases h
    · rename_i clientSigners medThreshold hres
      split at h
      · cases h
      · rename_i hne
        split at h
        · cases h
        · rename_i serverSigned totalWeight hloop
          split at h
          · cases h
          · rename_i hss
            split at h
            · cases h
            · rename_i hlt
              split at h
              · cases h
              · rename_i hzero
                rcases sigLoop_ok verifySig serverPublicKey clientSigners sigs false 0 []
                  serverSigned totalWeight hloop with ⟨hssval, htwval, hrec, hnd, -⟩
                have hssb : serverSigned = true := by
                  by_cases hb : serverSigned = true
                  · exact hb
                  · exact absurd (by simpa using hb) hss
                have hany : sigs.any (fun sig => verifySig serverPublicKey sig.data) = true := by
                  rw [hssb] at hssval
                  simpa using hssval.symm
                have hsum : totalWeight =
                    clientWeightSum verifySig serverPublicKey clientSigners sigs := by
                  rw [htwval]; omega
                refine ⟨clientSigners, medThreshold, hres, ?_, hnd, hrec, ?_, ?_⟩
                · rcases List.any_eq_true.mp hany with ⟨sig, hmem, hver⟩
                  exact ⟨sig, hmem, hver⟩
                · rw [← hsum]
                  exact le_of_not_lt hlt
                · intro hmz
                  have htwnz : totalWeight ≠ 0 := by
                    intro hc
                    exact hzero ⟨hmz, hc⟩
                  rw [hsum] at htwnz
                  by_contra hno
                  push_neg at hno
                  have hall : ∀ x ∈ sigs.map
                      (clientSigWeight verifySig serverPublicKey clientSigners), x = 0 := by
                    intro x hx
                    rcases List.mem_map.mp hx with ⟨sig, hmem, rfl⟩
                    unfold clientSigWeight
                    have hv : verifySig serverPublicKey sig.data = true := by
                      by_cases hb : verifySig serverPublicKey sig.data = true
                      · exact hb
                      · exact absurd (by simpa using hb) (by
                          intro hfalse
                          exact absurd (hno sig hmem) (by simp [hfalse]))
                    rw [if_pos hv]
                  exact htwnz (by
                    unfold clientWeightSum
                    exact List.sum_eq_zero hall)

/-- C2: every signed challenge payload that `VerifyChallenge` accepts carries
a valid server signature (not counted toward client weight), no two of its
signatures share a hint, every non-server signature verifies against some
signer of the subject's resolved signer set, and the summed weights of the
matched client signatures reach the medium threshold, with at least one
client signature when the threshold is 0. -/
theorem verifyChallenge_accept_sound (verifySig : String → Nat → Bool)
    (parseOk : String → Bool) (domain serverPublicKey : String)
    (fetcher : Option (Except String (List AccountSigner × Thresholds)))
    (issueJWT : String → String) (store : NonceStoreState) (now : Nat)
    (tx : ChallengeTx) (token : String)
    (h : (VerifyChallenge verifySig parseOk domain serverPublicKey fetcher issueJWT
      store now (some tx)).1 = .ok token) :
    ∃ firstOp op2 rest,
      tx.operations = .manageData firstOp :: op2 :: rest ∧
      ∃ clientSigners medThreshold,
        resolveClientSigners parseOk firstOp.sourceAccount fetcher =
          .ok (clientSigners, medThreshold) ∧
        (∃ sig ∈ tx.signatures, verifySig serverPublicKey sig.data = true) ∧
        (tx.signatures.map (fun sig => sig.hint)).Nodup ∧
        (∀ sig ∈ tx.signatures, verifySig serverPublicKey sig.data = false →
          ∃ cs ∈ clientSigners, verifySig cs.1 sig.data = true) ∧
        medThreshold ≤ clientWeightSum verifySig serverPublicKey clientSigners
          tx.signatures ∧
        (medThreshold = 0 →
          ∃ sig ∈ tx.signatures, verifySig serverPublicKey sig.data = false) := by
  rcases hops2 : tx.operations with _ | ⟨op0, tl⟩
  · exfalso; simp [VerifyChallenge, hops2] at h
  rcases htl : tl with _ | ⟨op1, rest⟩
  · exfalso; simp [VerifyChallenge, hops2, htl] at h
  subst htl
  cases op0 with
  | other => exfalso; simp [VerifyChallenge, hops2] at h
  | manageData firstOp =>
      refine ⟨firstOp, op1, rest, rfl, ?_⟩
      rcases hv : firstOp.value with _ | nonce
      · exfalso; simp [VerifyChallenge, hops2, hv] at h
      by_cases hname : firstOp.name ≠ domain ++ " auth"
      · exfalso; simp [VerifyChallenge, hops2, hv, hname] at h
      by_cases hcons : ¬ (nonceConsume store now nonce).1 = true
      · exfalso; simp [VerifyChallenge, hops2, hv, hname, hcons] at h
      by_cases hsrc2 : tx.sourceAccount ≠ serverPublicKey
      · exfalso; simp [VerifyChallenge, hops2, hv, hname, hcons, hsrc2] at h
      by_cases hblank : goTrimSpace firstOp.sourceAccount = ""
      · exfalso; simp [VerifyChallenge, hops2, hv, hname, hcons, hsrc2, hblank] at h
      cases hsig : verifyChallengeSignatures verifySig parseOk serverPublicKey
          firstOp.sourceAccount fetcher tx.signatures with
      | error e =>
          exfalso
          simp [VerifyChallenge, hops2, hv, hname, hcons, hsrc2, hblank, hsig] at h
      | ok u =>
          cases u
          exact verifyChallengeSignatures_ok verifySig parseOk serverPublicKey
            firstOp.sourceAccount fetcher tx.signatures hsig

/-- Witness for C2: the concrete challenge is accepted, and the theorem yields
its signature guarantees. -/
theorem verifyChallenge_accept_sound_witness :
    ∃ firstOp op2 rest,
      wTxGood.operations = .manageData firstOp :: op2 :: rest ∧
      ∃ clientSigners medThreshold,
        resolveClientSigners (fun _ => true) firstOp.sourceAccount none =
          .ok (clientSigners, medThreshold) ∧
        (∃ sig ∈ wTxGood.signatures, wVerifySig "S" sig.data = true) ∧
        (wTxGood.signatures.map (fun sig => sig.hint)).Nodup ∧
        (∀ sig ∈ wTxGood.signatures, wVerifySig "S" sig.data = false →
          ∃ cs ∈ clientSigners, wVerifySig cs.1 sig.data = true) ∧
        medThreshold ≤ clientWeightSum wVerifySig "S" clientSigners wTxGood.signatures ∧
        (medThreshold = 0 → ∃ sig ∈ wTxGood.signatures, wVerifySig "S" sig.data = false) :=
  verifyChallenge_accept_sound wVerifySig (fun _ => true) "example.com" "S" none
    (fun s => "jwt-" ++ s) wStore 5 wTxGood "jwt-C" (by decide)

theorem nonceConsume_success_unconsumable (s : NonceStoreState) (now : Nat) (nonce : String)
    (h : (nonceConsume s now nonce).1 = true) :
    nonceUnconsumable (nonceConsume s now nonce).2 nonce := by
  intro e2 he2
  rcases (nonceConsume_fst_true_iff s now nonce).mp h with ⟨e, hs, hc, hle⟩
  rw [nonceConsume_snd_apply, if_pos rfl, nonceSweep_apply, hs, sweepCell_some,
    if_neg (Nat.not_lt_of_le hle), consumeCell_some, if_neg (by simp [hc]),
    if_neg (Nat.not_lt_of_le hle)] at he2
  injection he2 with he2
  rw [← he2]

/-- Counterexample for C4 as stated: on a payload whose second operation value
differs from the domain, `VerifyChallenge` fails with challenge-verify-failed
but the Nonce Registry is changed — the Op #1 nonce is marked consumed and a
later `Consume` of it returns false. -/
theorem verifyChallenge_order_counterexample :
    (VerifyChallenge wVerifySig (fun _ => true) "example.com" "S" none
        (fun s => "jwt-" ++ s) wStore 5 (some wTxMismatch)).1 =
      .error ⟨CHALLENGE_VERIFY_FAILED, "web_auth_domain value mismatch"⟩ ∧
    (VerifyChallenge wVerifySig (fun _ => true) "example.com" "S" none
        (fun s => "jwt-" ++ s) wStore 5 (some wTxMismatch)).2 "n1" = some ⟨10, true⟩ ∧
    (nonceConsume (VerifyChallenge wVerifySig (fun _ => true) "example.com" "S" none
        (fun s => "jwt-" ++ s) wStore 5 (some wTxMismatch)).2 5 "n1").1 = false := by
  refine ⟨by decide, by decide, by decide⟩

/-- C4 (amended): `VerifyChallenge` performs the Op #2 web_auth_domain checks
only after the nonce has been consumed: on every payload that reaches the
value check with a second-operation value differing from the domain bytes,
the call fails with challenge-verify-failed, the Nonce Registry holds the
consume's result, and the Op #1 nonce can no longer be consumed. -/
theorem verifyChallenge_consumes_nonce_before_domain_check
    (verifySig : String → Nat → Bool) (parseOk : String → Bool)
    (domain serverPublicKey : String)
    (fetcher : Option (Except String (List AccountSigner × Thresholds)))
    (issueJWT : String → String) (store : NonceStoreState) (now : Nat)
    (firstOp secondOp : ManageDataOp) (rest : List TxOperation) (tx : ChallengeTx)
    (nonce : String)
    (hops : tx.operations = .manageData firstOp :: .manageData secondOp :: rest)
    (hval : firstOp.value = some nonce)
    (hname : firstOp.name = domain ++ " auth")
    (hcons : (nonceConsume store now nonce).1 = true)
    (hsrc : tx.sourceAccount = serverPublicKey)
    (hacct : goTrimSpace firstOp.sourceAccount ≠ "")
    (hsig : verifyChallengeSignatures verifySig parseOk serverPublicKey
      firstOp.sourceAccount fetcher tx.signatures = .ok ())
    (hop2name : secondOp.name = "web_auth_domain")
    (hmm : secondOp.value.getD "" ≠ domain) :
    VerifyChallenge verifySig parseOk domain serverPublicKey fetcher issueJWT store now
        (some tx) =
      (.error ⟨CHALLENGE_VERIFY_FAILED, "web_auth_domain value mismatch"⟩,
        (nonceConsume store now nonce).2) ∧
    nonceUnconsumable (nonceConsume store now nonce).2 nonce := by
  refine ⟨?_, nonceConsume_success_unconsumable store now nonce hcons⟩
  simp only [VerifyChallenge, hops, hval]
  rw [if_neg (by rw [hname]; simp)]
  rw [if_neg (not_not_intro hcons)]
  rw [if_neg (fun hn => hn hsrc)]
  rw [if_neg hacct]
  rw [hsig]
  rw [if_neg (fun hn => hn hop2name)]
  rw [if_pos hmm]

/-- Witness for the amended C4 at the concrete mismatching challenge. -/
theorem verifyChallenge_consumes_nonce_witness :
    VerifyChallenge wVerifySig (fun _ => true) "example.com" "S" none
        (fun s => "jwt-" ++ s) wStore 5 (some wTxMismatch) =
      (.error ⟨CHALLENGE_VERIFY_FAILED, "web_auth_domain value mismatch"⟩,
        (nonceConsume wStore 5 "n1").2) ∧
    nonceUnconsumable (nonceConsume wStore 5 "n1").2 "n1" :=
  verifyChallenge_consumes_nonce_before_domain_check wVerifySig (fun _ => true)
    "example.com" "S" none (fun s => "jwt-" ++ s) wStore 5
    ⟨"example.com auth", some "n1", "C"⟩ ⟨"web_auth_domain", some "evil.com", "S"⟩
    [] wTxMismatch "n1" rfl rfl rfl (by decide) rfl (by decide) (by decide) rfl (by decide)

theorem splitDot_no_dot (a : List Char) (ha : '.' ∉ a) : splitDot a = [a] := by
  induction a with
  | nil => rfl
  | cons x xs ih =>
      have hx : ¬ x = '.' := fun hc => ha (hc ▸ List.mem_cons_self x xs)
      have hxs : '.' ∉ xs := fun hc => ha (List.mem_cons_of_mem x hc)
      rw [splitDot, if_neg hx, ih hxs]

theorem splitDot_append (a r : List Char) (ha : '.' ∉ a) :
    splitDot (a ++ '.' :: r) = a :: splitDot r := by
  induction a with
  | nil => rw [List.nil_append, splitDot, if_pos rfl]
  | cons x xs ih =>
      have hx : ¬ x = '.' := fun hc => ha (hc ▸ List.mem_cons_self x xs)
      have hxs : '.' ∉ xs := fun hc => ha (List.mem_cons_of_mem x hc)
      rw [List.cons_append, splitDot, if_neg hx, ih hxs]

/-- C7: a token produced by the HMAC issuer and checked by the same
instance's Verify before expiry succeeds and returns the minted claims
modulo iat/exp: subject, auth method and memo unchanged, issuer equal to the
configured issuer, issued-at the mint instant and expiry shifted by the
configured positive duration.  The stdlib premises are the contracts the
implementation relies on, at the values this token exercises: base64url
output has no dot and decodes back, and json.Unmarshal inverts json.Marshal
on the minted payload. -/
theorem hmacJWT_roundtrip (enc : List Char → List Char)
    (dec : List Char → Option (List Char)) (marshal : jwtPayload → List Char)
    (unmarshal : List Char → Option jwtPayload) (mac : List Char → List Char)
    (issuer : String) (expiry now nowV : Int) (claims : JWTClaims)
    (hdot1 : '.' ∉ enc jwtHeaderJSON)
    (hdot2 : '.' ∉ enc (marshal (jwtIssuePayload issuer expiry now claims)))
    (hdot3 : '.' ∉ enc (mac (enc jwtHeaderJSON ++ '.' ::
      enc (marshal (jwtIssuePayload issuer expiry now claims)))))
    (hdec : dec (enc (marshal (jwtIssuePayload issuer expiry now claims))) =
      some (marshal (jwtIssuePayload issuer expiry now claims)))
    (hun : unmarshal (marshal (jwtIssuePayload issuer expiry now claims)) =
      some (jwtIssuePayload issuer expiry now claims))
    (_hpos : 0 < expiry) (hbefore : nowV < now + expiry) :
    hmacVerify enc dec unmarshal mac issuer nowV
        (hmacIssue enc marshal mac issuer expiry now claims) =
      .ok { Subject := claims.Subject, Issuer := issuer, IssuedAt := now,
            ExpiresAt := now + expiry, AuthMethod := claims.AuthMethod,
            Memo := claims.Memo } := by
  have htoken : hmacIssue enc marshal mac issuer expiry now claims =
      enc jwtHeaderJSON ++ '.' ::
        (enc (marshal (jwtIssuePayload issuer expiry now claims)) ++ '.' ::
          enc (mac (enc jwtHeaderJSON ++ '.' ::
            enc (marshal (jwtIssuePayload issuer expiry now claims))))) := by
    rw [hmacIssue]
    rw [List.append_assoc]
    rfl
  rw [htoken, hmacVerify.eq_def]
  rw [splitDot_append _ _ hdot1, splitDot_append _ _ hdot2, splitDot_no_dot _ hdot3]
  dsimp only
  rw [if_neg (not_not_intro rfl)]
  rw [hdec]
  dsimp only
  rw [hun]
  dsimp only
  rw [if_neg (by
    show ¬ (jwtIssuePayload issuer expiry now claims).Exp ≤ nowV
    rw [show (jwtIssuePayload issuer expiry now claims).Exp = now + expiry from rfl]
    omega)]
  rw [if_neg (not_not_intro (show (jwtIssuePayload issuer expiry now claims).Iss =
    issuer from rfl))]
  rfl

/-- Witness for C7: concrete oracles satisfying the stdlib contracts at the
minted token (identity encoding, constant mac), a concrete claims value, and
times 100 (mint), 150 (verify), expiry 3600. -/
theorem hmacJWT_roundtrip_witness :
    hmacVerify id some (fun _ => some (jwtIssuePayload "anchor.example" 3600 100
        ⟨"GSUBJ", "ignored", 0, 0, "web_auth", "m1"⟩))
      (fun _ => "MAC".data) "anchor.example" 150
      (hmacIssue id (fun _ => "PAYLOAD".data) (fun _ => "MAC".data)
        "anchor.example" 3600 100 ⟨"GSUBJ", "ignored", 0, 0, "web_auth", "m1"⟩) =
      .ok { Subject := "GSUBJ", Issuer := "anchor.example", IssuedAt := 100,
            ExpiresAt := 3700, AuthMethod := "web_auth", Memo := "m1" } :=
  hmacJWT_roundtrip id some (fun _ => "PAYLOAD".data)
    (fun _ => some (jwtIssuePayload "anchor.example" 3600 100
      ⟨"GSUBJ", "ignored", 0, 0, "web_auth", "m1"⟩))
    (fun _ => "MAC".data) "anchor.example" 3600 100 150
    ⟨"GSUBJ", "ignored", 0, 0, "web_auth", "m1"⟩
    (by decide) (by decide) (by decide) rfl rfl (by decide) (by decide)
